import Mathlib

/-!
Shallow embedding of the core evaluation pipeline of the NZ property analyser
(backend/app/services): financial models, strategy decision, composite scorer,
population filter, renovation estimator and the orchestrator's content-hash
cache.  Python floats are modelled as rationals (ℚ); Python `round` (ties to
even) is `pyRound`; Python dicts with optional keys are structures of `Option`
fields read through `Option.getD` with the source's defaults.  sha256 content
hashes are modelled by their canonicalized pre-image (the hash function is
treated as injective on the inputs that occur).
-/

namespace NZP

/-- Round a rational to the nearest integer, ties to even (Python `round`). -/
def pyRoundInt (q : ℚ) : ℤ :=
  let f : ℤ := ⌊q⌋
  let r : ℚ := q - (f : ℚ)
  if r < 1/2 then f
  else if 1/2 < r then f + 1
  else if f % 2 = 0 then f else f + 1

/-- Powers of ten as an executable recursion. -/
def pow10 : ℕ → ℚ
  | 0 => 1
  | n + 1 => 10 * pow10 n

/-- Python `round(x, n)`: round to `n` decimal places, ties to even. -/
def pyRound (n : ℕ) (q : ℚ) : ℚ :=
  ((pyRoundInt (q * pow10 n) : ℤ) : ℚ) / pow10 n

/-- Executable absolute value on ℚ (Python `abs`). -/
def pyAbs (q : ℚ) : ℚ :=
  if q < 0 then -q else q

/-- Executable minimum on ℚ (Python `min`). -/
def pyMin (a b : ℚ) : ℚ :=
  if a ≤ b then a else b

/-- Executable maximum on ℚ (Python `max`). -/
def pyMax (a b : ℚ) : ℚ :=
  if a ≤ b then b else a

/-- Python format `{x:.1f}` (one decimal place) on a rational. -/
def fmt1 (q : ℚ) : String :=
  let n : ℤ := pyRoundInt (q * 10)
  let m : ℕ := n.natAbs
  (if n < 0 then "-" else "") ++ toString (m / 10) ++ "." ++ toString (m % 10)

/-- Python format `{x:.2f}` (two decimal places) on a rational. -/
def fmt2 (q : ℚ) : String :=
  let n : ℤ := pyRoundInt (q * 100)
  let m : ℕ := n.natAbs
  (if n < 0 then "-" else "") ++ toString (m / 100) ++ "." ++
    (if m % 100 < 10 then "0" else "") ++ toString (m % 100)

/-- Insert a thousands separator every three digits; input and output are
reversed digit lists (least significant digit first). -/
def groupRev : List Char → List Char
  | a :: b :: c :: d :: rest => a :: b :: c :: ',' :: groupRev (d :: rest)
  | l => l

/-- Python format `{x:,.0f}`: round to an integer and group digits by commas. -/
def fmtComma0 (q : ℚ) : String :=
  let n : ℤ := pyRoundInt q
  let s : List Char := (toString n.natAbs).toList
  (if n < 0 then "-" else "") ++ String.mk (groupRev s.reverse).reverse

/-- Python format `{n:,}` for a natural number. -/
def fmtCommaNat (n : ℕ) : String :=
  String.mk (groupRev (toString n).toList.reverse).reverse

/-- Python `str` of an int-or-float threshold value: integers print without a
decimal point, the half-integer values produced by the market adjustment print
with one decimal place. -/
def pyStr (q : ℚ) : String :=
  if q.den = 1 then toString q.num else fmt1 q

/-- Python `str.lower` on ASCII text, as an executable character map. -/
def pyLower (s : String) : String :=
  String.mk (s.toList.map Char.toLower)

/-- Python `str.upper` on ASCII text, as an executable character map. -/
def pyUpper (s : String) : String :=
  String.mk (s.toList.map Char.toUpper)

/-- Python `str.strip`: drop whitespace from both ends. -/
def pyStrip (s : String) : String :=
  String.mk
    (((s.toList.dropWhile Char.isWhitespace).reverse.dropWhile
      Char.isWhitespace).reverse)

/-- `charsStartWith pat s`: `pat` is an initial segment of `s`. -/
def charsStartWith : List Char → List Char → Bool
  | [], _ => true
  | _ :: _, [] => false
  | a :: as, b :: bs => a = b && charsStartWith as bs

/-- `charsContain pat s`: `pat` occurs contiguously in `s`. -/
def charsContain (pat : List Char) : List Char → Bool
  | [] => charsStartWith pat []
  | c :: cs => charsStartWith pat (c :: cs) || charsContain pat cs

/-- Python `pat in s` substring test. -/
def strContains (s pat : String) : Bool :=
  charsContain pat.toList s.toList

/-- Lexicographic comparison of character lists by code point (the order
Python uses to sort strings). -/
def charListLt : List Char → List Char → Bool
  | [], [] => false
  | [], _ :: _ => true
  | _ :: _, [] => false
  | a :: as, b :: bs =>
    if a.toNat < b.toNat then true
    else if b.toNat < a.toNat then false
    else charListLt as bs

/-- Executable string comparison (Python `<` on strings). -/
def strLtB (a b : String) : Bool :=
  charListLt a.toList b.toList

/-- Insert `x` into `l` before the first element `y` with `cmp x y = true`
(the insertion step of a stable sort). -/
def insertStable {α : Type} (cmp : α → α → Bool) (x : α) : List α → List α
  | [] => [x]
  | y :: ys => if cmp x y then x :: y :: ys else y :: insertStable cmp x ys

/-- Stable sort: elements are inserted in input order, each after all already
placed elements it does not strictly precede (models Python's stable
`sorted` / the row order of the store's ordered query). -/
def stableSort {α : Type} (cmp : α → α → Bool) (l : List α) : List α :=
  l.foldl (fun acc x => insertStable cmp x acc) []

/-! ## Financial models (services/financial/flip_model.py, rental_model.py)

The `analysis` argument of both models is a dict of optional sub-dicts;
each key the models read is one optional field here. -/

/-- The `renovation` sub-document as read by the financial models. -/
structure RenoDict where
  total_estimated : Option ℚ

/-- The `arv` sub-document as read by the financial models. -/
structure ArvDict where
  estimated_arv : Option ℚ

/-- The `timeline` sub-document as read by the financial models. -/
structure TimelineDict where
  estimated_weeks : Option ℚ

/-- The `council` sub-document as read by the financial models. -/
structure CouncilDict where
  annual_rates : Option ℚ

/-- The `insurability` sub-document as read by the financial models. -/
structure InsurDict where
  annual_insurance : Option ℚ

/-- The `rental` sub-document as read by the rental model. -/
structure RentalEstDict where
  estimated_weekly_rent : Option ℚ

/-- The listing dict as read by the financial models. -/
structure FinListing where
  price_display : Option ℚ

/-- The analysis dict passed to both financial models. -/
structure FinAnalysis where
  renovation : Option RenoDict
  arv : Option ArvDict
  timeline : Option TimelineDict
  council : Option CouncilDict
  insurability : Option InsurDict
  rental : Option RentalEstDict

/-- Result dict of `calculate_flip_financials`. -/
structure FlipResult where
  strategy : String
  purchase_price : ℚ
  renovation_cost : ℚ
  gst_refund : ℚ
  net_reno_cost : ℚ
  arv : ℚ
  timeline_weeks : ℚ
  timeline_months : ℚ
  interest_rate : ℚ
  interest_cost : ℚ
  insurance_cost : ℚ
  rates_cost : ℚ
  purchase_costs : ℚ
  commission : ℚ
  legal_sell : ℚ
  marketing : ℚ
  accounting : ℚ
  total_expenses : ℚ
  gross_profit : ℚ
  tax : ℚ
  net_profit : ℚ
  cash_invested : ℚ
  roi_percentage : ℚ
  meets_15_roi : Bool
deriving DecidableEq

/-- `_empty_flip_result` (flip_model.py). -/
def _empty_flip_result : FlipResult where
  strategy := "FLIP"
  purchase_price := 0
  renovation_cost := 0
  gst_refund := 0
  net_reno_cost := 0
  arv := 0
  timeline_weeks := 0
  timeline_months := 0
  interest_rate := 0.054
  interest_cost := 0
  insurance_cost := 0
  rates_cost := 0
  purchase_costs := 0
  commission := 0
  legal_sell := 0
  marketing := 0
  accounting := 0
  total_expenses := 0
  gross_profit := 0
  tax := 0
  net_profit := 0
  cash_invested := 0
  roi_percentage := 0
  meets_15_roi := false

/-- `calculate_flip_financials` (flip_model.py): flip profit and ROI. -/
def calculate_flip_financials (listing : FinListing) (analysis : FinAnalysis)
    (interest_rate_override : Option ℚ) : FlipResult :=
  let purchase_price := listing.price_display.getD 0
  let reno_cost := (analysis.renovation.bind (·.total_estimated)).getD 60000
  let arv := (analysis.arv.bind (·.estimated_arv)).getD 0
  let timeline_weeks := (analysis.timeline.bind (·.estimated_weeks)).getD 8
  let annual_rates := (analysis.council.bind (·.annual_rates)).getD 3000
  if purchase_price ≤ 0 then _empty_flip_result else
  let sale_price := if arv > 0 then arv else purchase_price * 1.2
  let purchase_costs : ℚ := 5000
  let gst_refund := reno_cost * 0.15
  let net_reno_cost := reno_cost - gst_refund
  let timeline_months := timeline_weeks / 4.33
  let interest_rate := interest_rate_override.getD 0.054
  let interest_cost := purchase_price * interest_rate * (timeline_months / 12)
  let insurance := 1000 * (timeline_months / 12)
  let rates_cost := annual_rates * (timeline_months / 12)
  let commission := sale_price * 0.0345
  let legal_sell : ℚ := 2000
  let marketing : ℚ := 8500
  let accounting : ℚ := 2500
  let total_expenses := purchase_price + purchase_costs + net_reno_cost
    + interest_cost + insurance + rates_cost + commission + legal_sell
    + marketing + accounting
  let gross_profit := sale_price - total_expenses
  let tax := if gross_profit > 0 then gross_profit * 0.33 else 0
  let net_profit := gross_profit - tax
  let cash_invested := purchase_price + purchase_costs + reno_cost
  let roi := if cash_invested > 0 then net_profit / cash_invested else 0
  { strategy := "FLIP"
    purchase_price := pyRound 2 purchase_price
    renovation_cost := pyRound 2 reno_cost
    gst_refund := pyRound 2 gst_refund
    net_reno_cost := pyRound 2 net_reno_cost
    arv := pyRound 2 sale_price
    timeline_weeks := timeline_weeks
    timeline_months := pyRound 1 timeline_months
    interest_rate := interest_rate
    interest_cost := pyRound 2 interest_cost
    insurance_cost := pyRound 2 insurance
    rates_cost := pyRound 2 rates_cost
    purchase_costs := purchase_costs
    commission := pyRound 2 commission
    legal_sell := legal_sell
    marketing := marketing
    accounting := accounting
    total_expenses := pyRound 2 total_expenses
    gross_profit := pyRound 2 gross_profit
    tax := pyRound 2 tax
    net_profit := pyRound 2 net_profit
    cash_invested := pyRound 2 cash_invested
    roi_percentage := pyRound 2 (roi * 100)
    meets_15_roi := decide (roi ≥ 0.15) }

/-- Result dict of `calculate_rental_financials`. -/
structure RentalResult where
  strategy : String
  purchase_price : ℚ
  renovation_cost : ℚ
  purchase_costs : ℚ
  total_invested : ℚ
  target_valuation : ℚ
  weekly_rent : ℚ
  annual_rent : ℚ
  vacancy_weeks : ℚ
  accounting : ℚ
  bank_fees : ℚ
  insurance : ℚ
  interest_rate : ℚ
  annual_interest : ℚ
  tax_deductible_interest : ℚ
  property_management : ℚ
  annual_rates : ℚ
  repairs : ℚ
  total_expenses : ℚ
  net_cash_surplus : ℚ
  chattels_depreciation : ℚ
  taxable_income : ℚ
  tax_refund : ℚ
  tax_owed : ℚ
  overall_annual_cashflow : ℚ
  gross_yield_percentage : ℚ
  net_yield_percentage : ℚ
  meets_9_yield : Bool
deriving DecidableEq

/-- `_empty_rental_result` (rental_model.py). -/
def _empty_rental_result : RentalResult where
  strategy := "RENTAL"
  purchase_price := 0
  renovation_cost := 0
  purchase_costs := 0
  total_invested := 0
  target_valuation := 0
  weekly_rent := 0
  annual_rent := 0
  vacancy_weeks := 2
  accounting := 0
  bank_fees := 0
  insurance := 0
  interest_rate := 0.048
  annual_interest := 0
  tax_deductible_interest := 0
  property_management := 0
  annual_rates := 0
  repairs := 0
  total_expenses := 0
  net_cash_surplus := 0
  chattels_depreciation := 0
  taxable_income := 0
  tax_refund := 0
  tax_owed := 0
  overall_annual_cashflow := 0
  gross_yield_percentage := 0
  net_yield_percentage := 0
  meets_9_yield := false

/-- `calculate_rental_financials` (rental_model.py): one-year rental hold. -/
def calculate_rental_financials (listing : FinListing) (analysis : FinAnalysis)
    (interest_rate_override : Option ℚ) : RentalResult :=
  let purchase_price := listing.price_display.getD 0
  let reno_cost := (analysis.renovation.bind (·.total_estimated)).getD 60000
  let weekly_rent := (analysis.rental.bind (·.estimated_weekly_rent)).getD 0
  let annual_insurance := (analysis.insurability.bind (·.annual_insurance)).getD 2000
  let annual_rates := (analysis.council.bind (·.annual_rates)).getD 3000
  let target_valuation := (analysis.arv.bind (·.estimated_arv)).getD 0
  if purchase_price ≤ 0 ∨ weekly_rent ≤ 0 then _empty_rental_result else
  let purchase_costs : ℚ := 5000
  let total_invested := purchase_price + purchase_costs + reno_cost
  let annual_rent := weekly_rent * 50
  let accounting : ℚ := 1100
  let bank_fees : ℚ := 0
  let insurance := annual_insurance
  let interest_rate := interest_rate_override.getD 0.048
  let annual_interest := total_invested * interest_rate
  let tax_deductible_interest := annual_interest * 0.80
  let prop_mgmt := (annual_rent * 0.10) + (300 * 1.15)
  let repairs : ℚ := 500
  let total_expenses := accounting + bank_fees + insurance
    + tax_deductible_interest + prop_mgmt + annual_rates + repairs
  let net_cash_surplus := annual_rent - total_expenses
  let chattels_depreciation := reno_cost * 0.1
  let taxable_income := net_cash_surplus - chattels_depreciation
  let tax_refund := if taxable_income < 0 then pyAbs taxable_income * 0.175 else 0
  let tax_owed := if taxable_income < 0 then 0 else taxable_income * 0.175
  let overall_cash_surplus := net_cash_surplus + tax_refund - tax_owed
  let gross_yield := if total_invested > 0 then annual_rent / total_invested else 0
  let net_yield := if total_invested > 0 then overall_cash_surplus / total_invested else 0
  { strategy := "RENTAL"
    purchase_price := pyRound 2 purchase_price
    renovation_cost := pyRound 2 reno_cost
    purchase_costs := purchase_costs
    total_invested := pyRound 2 total_invested
    target_valuation := pyRound 2 target_valuation
    weekly_rent := pyRound 2 weekly_rent
    annual_rent := pyRound 2 annual_rent
    vacancy_weeks := 2
    accounting := accounting
    bank_fees := bank_fees
    insurance := pyRound 2 insurance
    interest_rate := interest_rate
    annual_interest := pyRound 2 annual_interest
    tax_deductible_interest := pyRound 2 tax_deductible_interest
    property_management := pyRound 2 prop_mgmt
    annual_rates := pyRound 2 annual_rates
    repairs := repairs
    total_expenses := pyRound 2 total_expenses
    net_cash_surplus := pyRound 2 net_cash_surplus
    chattels_depreciation := pyRound 2 chattels_depreciation
    taxable_income := pyRound 2 taxable_income
    tax_refund := pyRound 2 tax_refund
    tax_owed := pyRound 2 tax_owed
    overall_annual_cashflow := pyRound 2 overall_cash_surplus
    gross_yield_percentage := pyRound 2 (gross_yield * 100)
    net_yield_percentage := pyRound 2 (net_yield * 100)
    meets_9_yield := decide (gross_yield ≥ 0.09) }

/-! Standalone reading of the flip model's intermediate quantities, used to
state the claims about its formulas. -/

/-- Renovation cost as read by the flip model (default 60000). -/
def flipRenoCost (analysis : FinAnalysis) : ℚ :=
  (analysis.renovation.bind (·.total_estimated)).getD 60000

/-- Sale price: the ARV when positive, else a 20% markup on price. -/
def flipSalePrice (listing : FinListing) (analysis : FinAnalysis) : ℚ :=
  let arv := (analysis.arv.bind (·.estimated_arv)).getD 0
  if arv > 0 then arv else listing.price_display.getD 0 * 1.2

/-- Total flip expenses per the source's itemisation. -/
def flipTotalExpenses (listing : FinListing) (analysis : FinAnalysis)
    (interest_rate_override : Option ℚ) : ℚ :=
  let purchase_price := listing.price_display.getD 0
  let reno_cost := flipRenoCost analysis
  let timeline_weeks := (analysis.timeline.bind (·.estimated_weeks)).getD 8
  let annual_rates := (analysis.council.bind (·.annual_rates)).getD 3000
  let timeline_months := timeline_weeks / 4.33
  let interest_rate := interest_rate_override.getD 0.054
  purchase_price + 5000 + (reno_cost - reno_cost * 0.15)
    + purchase_price * interest_rate * (timeline_months / 12)
    + 1000 * (timeline_months / 12) + annual_rates * (timeline_months / 12)
    + flipSalePrice listing analysis * 0.0345 + 2000 + 8500 + 2500

/-- Gross flip profit: sale price minus total expenses. -/
def flipGrossProfit (listing : FinListing) (analysis : FinAnalysis)
    (interest_rate_override : Option ℚ) : ℚ :=
  flipSalePrice listing analysis - flipTotalExpenses listing analysis interest_rate_override

/-- Cash invested in the flip: price + purchase costs + renovation cost. -/
def flipCashInvested (listing : FinListing) (analysis : FinAnalysis) : ℚ :=
  listing.price_display.getD 0 + 5000 + flipRenoCost analysis

/-- Flip tax: the flat 33% rate applied to positive gross profit only. -/
def flipTax (listing : FinListing) (analysis : FinAnalysis)
    (interest_rate_override : Option ℚ) : ℚ :=
  let g := flipGrossProfit listing analysis interest_rate_override
  if g > 0 then g * 0.33 else 0

/-- Net flip profit: gross profit minus tax. -/
def flipNetProfit (listing : FinListing) (analysis : FinAnalysis)
    (interest_rate_override : Option ℚ) : ℚ :=
  flipGrossProfit listing analysis interest_rate_override
    - flipTax listing analysis interest_rate_override

/-! ## Strategy decision (services/financial/strategy.py) -/

/-- The subdivision analysis dict as read by `decide_strategy`. -/
structure SubdivDict where
  subdivision_potential : Option Bool
  net_value_add : Option ℚ

/-- The optional market-conditions dict (`trend` key). -/
structure MarketDict where
  trend : Option String

/-- Result dict of `decide_strategy`. -/
structure StrategyResult where
  recommended_strategy : String
  reason : String
  flip_roi : ℚ
  rental_yield : ℚ
  subdivision_bonus : ℚ
  risk_tolerance : String
  risk_assessment : List String
deriving DecidableEq

/-- `_assess_risk` (strategy.py): risk notes from the deal fundamentals. -/
def _assess_risk (flip_roi rental_yield timeline_weeks : ℚ) : List String :=
  let risks : List String :=
    (if timeline_weeks > 12 then
      ["Extended renovation timeline increases holding costs"] else [])
    ++ (if flip_roi > 0 ∧ flip_roi < 20 then
      ["Moderate flip ROI leaves less margin for unexpected costs"] else [])
    ++ (if rental_yield > 0 ∧ rental_yield < 8 then
      ["Rental yield below ideal for strong cash flow"] else [])
  if risks = [] then ["Low risk - strong fundamentals"] else risks

/-- `decide_strategy` (strategy.py): arbitrate FLIP vs RENTAL vs PASS from
flip ROI, rental yield, subdivision potential, market trend and risk
tolerance. -/
def decide_strategy (flip_analysis : FlipResult) (rental_analysis : RentalResult)
    (subdivision_analysis : SubdivDict) (market_conditions : Option MarketDict)
    (risk_tolerance : String) : StrategyResult :=
  let flip_roi := flip_analysis.roi_percentage
  let rental_yield := rental_analysis.gross_yield_percentage
  let flip_timeline := flip_analysis.timeline_weeks
  let flip_roi_threshold : ℚ :=
    if risk_tolerance = "LOW" then 18
    else if risk_tolerance = "HIGH" then 12
    else 15
  let rental_yield_threshold : ℚ :=
    if risk_tolerance = "LOW" then 10
    else if risk_tolerance = "HIGH" then 8
    else 9
  let trend : Option String := market_conditions.map (fun m => m.trend.getD "STABLE")
  let market_favors_flip : Bool := !(trend = some "COOLING")
  let rental_yield_threshold :=
    if trend = some "COOLING" then rental_yield_threshold - 0.5
    else rental_yield_threshold
  let flip_roi_threshold :=
    if trend = some "HEATING" then flip_roi_threshold - 1 else flip_roi_threshold
  let rec_reason : String × String :=
    if flip_roi ≥ flip_roi_threshold then
      if rental_yield ≥ rental_yield_threshold then
        if flip_roi > rental_yield * 1.5 ∧ market_favors_flip then
          ("FLIP", "Higher ROI: " ++ fmt1 flip_roi ++ "% vs "
            ++ fmt1 rental_yield ++ "% yield")
        else
          ("RENTAL", "Good rental yield " ++ fmt1 rental_yield
            ++ "% with lower risk & flexibility")
      else
        if market_favors_flip then
          ("FLIP", "ROI " ++ fmt1 flip_roi ++ "% meets target, yield "
            ++ fmt1 rental_yield ++ "% below " ++ pyStr rental_yield_threshold ++ "%")
        else
          ("PASS", "ROI " ++ fmt1 flip_roi
            ++ "% meets target but cooling market increases flip risk")
    else if rental_yield ≥ rental_yield_threshold then
      ("RENTAL", "Rental yield " ++ fmt1 rental_yield
        ++ "% meets target (safer strategy); flip ROI " ++ fmt1 flip_roi
        ++ "% below " ++ pyStr flip_roi_threshold ++ "%")
    else
      ("PASS", "Neither strategy meets targets (Flip: " ++ fmt1 flip_roi
        ++ "% < " ++ pyStr flip_roi_threshold ++ "%, Rental: "
        ++ fmt1 rental_yield ++ "% < " ++ pyStr rental_yield_threshold ++ "%)")
  let subdivision_potential := subdivision_analysis.subdivision_potential.getD false
  let subdivision_value := subdivision_analysis.net_value_add.getD 0
  let recommended :=
    if subdivision_potential ∧ subdivision_value > 0 then
      rec_reason.1 ++ "_WITH_SUBDIVISION"
    else rec_reason.1
  let reason :=
    if subdivision_potential ∧ subdivision_value > 0 then
      rec_reason.2 ++ " | Subdivision adds ~$" ++ fmtComma0 subdivision_value
    else rec_reason.2
  { recommended_strategy := recommended
    reason := reason
    flip_roi := pyRound 2 flip_roi
    rental_yield := pyRound 2 rental_yield
    subdivision_bonus := subdivision_value
    risk_tolerance := risk_tolerance
    risk_assessment := _assess_risk flip_roi rental_yield flip_timeline }

/-- A flip result carrying only an ROI percentage (other fields empty), for
feeding the strategy decision with a given ROI. -/
def mkFlipRoi (r : ℚ) : FlipResult :=
  { _empty_flip_result with roi_percentage := r }

/-- A rental result carrying only a gross yield percentage. -/
def mkRentalYield (y : ℚ) : RentalResult :=
  { _empty_rental_result with gross_yield_percentage := y }

/-- A subdivision dict with no potential recorded. -/
def noSubdiv : SubdivDict :=
  ⟨none, none⟩

/-- The ordered decision rule exactly as claim C1 words it for MODERATE
tolerance in a market that does not disfavor flipping: fixed thresholds 15%
and 9% and a bare FLIP/RENTAL/PASS label.  Modelled from the claim, for
comparison against `decide_strategy`. -/
def claimedModerateStrategy (fr ry : ℚ) : String :=
  if fr ≥ 15 ∧ ry ≥ 9 then (if fr > ry * 1.5 then "FLIP" else "RENTAL")
  else if fr ≥ 15 then "FLIP"
  else if ry ≥ 9 then "RENTAL"
  else "PASS"

/-! ## Composite scorer (services/scoring/scorer.py)

`analysis_data` is a dict of optional sub-dicts; each key the scorer reads is
one optional field.  `_generate_flags` and `_generate_next_steps` are
diagnostic helpers not referenced by any claim and are not modelled. -/

/-- `strategy_decision` sub-document as read by the scorer. -/
structure ScStrategy where
  recommended_strategy : Option String

/-- `flip` sub-document as read by the scorer. -/
structure ScFlip where
  roi_percentage : Option ℚ

/-- `rental` sub-document as read by the scorer. -/
structure ScRental where
  gross_yield_percentage : Option ℚ

/-- `timeline` sub-document as read by the scorer. -/
structure ScTimeline where
  estimated_weeks : Option ℚ

/-- `arv` sub-document as read by the scorer. -/
structure ScArv where
  confidence_score : Option ℚ

/-- `rental_estimate` sub-document as read by the scorer. -/
structure ScRentalEst where
  bond_samples : Option ℚ

/-- `subdivision` sub-document as read by the scorer. -/
structure ScSubdiv where
  subdivision_potential : Option Bool
  net_value_add : Option ℚ

/-- `population` sub-document as read by the scorer. -/
structure ScPopulation where
  projected_growth : Option ℚ

/-- `insurability` sub-document as read by the scorer. -/
structure ScInsurability where
  insurable : Option Bool
  annual_insurance : Option ℚ

/-- The `analysis_data` dict passed to `calculate_composite_score`. -/
structure ScoreInput where
  strategy_decision : Option ScStrategy
  flip : Option ScFlip
  rental : Option ScRental
  timeline : Option ScTimeline
  arv : Option ScArv
  rental_estimate : Option ScRentalEst
  subdivision : Option ScSubdiv
  population : Option ScPopulation
  insurability : Option ScInsurability

/-- The six component scores as reported (rounded to one decimal place). -/
structure ComponentScores where
  roi_score : ℚ
  timeline_score : ℚ
  confidence_score : ℚ
  subdivision_score : ℚ
  location_score : ℚ
  insurability_score : ℚ
deriving DecidableEq

/-- Result of `calculate_composite_score` (scoring fields; the diagnostic
`flags`/`next_steps` lists are not modelled). -/
structure ScoreResult where
  composite_score : ℚ
  component_scores : ComponentScores
  verdict : String
  confidence_level : String
deriving DecidableEq

/-- The strategy recommendation string the scorer reads (default `PASS`). -/
def scRecommended (d : ScoreInput) : String :=
  (d.strategy_decision.bind (·.recommended_strategy)).getD "PASS"

/-- Component 1, ROI score: scaled flip ROI or rental yield per the
recommended strategy, the better of the two under PASS. -/
def roiScoreOf (d : ScoreInput) : ℚ :=
  let flip_roi := (d.flip.bind (·.roi_percentage)).getD 0
  let rental_yield := (d.rental.bind (·.gross_yield_percentage)).getD 0
  if strContains (scRecommended d) "FLIP" then
    pyMin 100 (flip_roi / 30 * 100)
  else if strContains (scRecommended d) "RENTAL" then
    pyMin 100 (rental_yield / 15 * 100)
  else
    pyMax (pyMin 100 (flip_roi / 30 * 100)) (pyMin 100 (rental_yield / 15 * 100))

/-- Component 2, timeline score: 100 up to 8 weeks, minus 5/week to 16,
then 3/week floored at 0. -/
def timelineScoreOf (d : ScoreInput) : ℚ :=
  let weeks := (d.timeline.bind (·.estimated_weeks)).getD 8
  if weeks ≤ 8 then 100
  else if weeks ≤ 16 then 100 - (weeks - 8) * 5
  else pyMax 0 (60 - (weeks - 16) * 3)

/-- Component 3, confidence score: mean of ARV confidence and a saturating
function of the rental bond sample count. -/
def confidenceScoreOf (d : ScoreInput) : ℚ :=
  let arv_confidence := (d.arv.bind (·.confidence_score)).getD 50
  let rental_samples := (d.rental_estimate.bind (·.bond_samples)).getD 0
  (arv_confidence + pyMin 100 (rental_samples * 5)) / 2

/-- Component 4, subdivision score: net value-add scaled against 100k. -/
def subdivisionScoreOf (d : ScoreInput) : ℚ :=
  if (d.subdivision.bind (·.subdivision_potential)).getD false then
    pyMin 100 ((d.subdivision.bind (·.net_value_add)).getD 0 / 100000 * 100)
  else 0

/-- Component 5, location growth score: affine in projected population
growth (default 2%), clamped to [0,100]. -/
def locationScoreOf (d : ScoreInput) : ℚ :=
  let g0 := (d.population.bind (·.projected_growth)).getD 0.02
  let pop_growth := if g0 = 0 then 0.02 else g0
  pyMin 100 (pyMax 0 ((pop_growth + 0.05) * 500))

/-- Component 6, insurability score: 0 if uninsurable, else decays with the
annual premium. -/
def insurabilityScoreOf (d : ScoreInput) : ℚ :=
  if !((d.insurability.bind (·.insurable)).getD true) then 0
  else pyMax 0 (100 - (d.insurability.bind (·.annual_insurance)).getD 2000 / 30)

/-- The composite as a weighted sum of the six component scores with the
fixed weights (ROI .40, timeline .15, confidence .15, subdivision .15,
location growth .10, insurability .05). -/
def weightedComposite (d : ScoreInput) : ℚ :=
  roiScoreOf d * 0.40 + timelineScoreOf d * 0.15 + confidenceScoreOf d * 0.15
    + subdivisionScoreOf d * 0.15 + locationScoreOf d * 0.10
    + insurabilityScoreOf d * 0.05

/-- `_assign_verdict` (scorer.py): verdict bands on the composite, with the
bare-PASS/low-composite exception. -/
def _assign_verdict (composite : ℚ) (strategy : Option ScStrategy) : String :=
  let recommended := (strategy.bind (·.recommended_strategy)).getD "PASS"
  if "PASS" = recommended ∧ composite < 40 then "PASS"
  else if composite ≥ 75 then "STRONG_BUY"
  else if composite ≥ 55 then "BUY"
  else if composite ≥ 35 then "MAYBE"
  else "PASS"

/-- `calculate_composite_score` (scorer.py): weighted composite, component
scores, verdict and confidence level. -/
def calculate_composite_score (d : ScoreInput) : ScoreResult :=
  let roi_score := roiScoreOf d
  let timeline_score := timelineScoreOf d
  let confidence_score := confidenceScoreOf d
  let subdivision_score := subdivisionScoreOf d
  let location_score := locationScoreOf d
  let insurability_score := insurabilityScoreOf d
  let composite := roi_score * 0.40 + timeline_score * 0.15
    + confidence_score * 0.15 + subdivision_score * 0.15
    + location_score * 0.10 + insurability_score * 0.05
  { composite_score := pyRound 1 composite
    component_scores :=
      { roi_score := pyRound 1 roi_score
        timeline_score := pyRound 1 timeline_score
        confidence_score := pyRound 1 confidence_score
        subdivision_score := pyRound 1 subdivision_score
        location_score := pyRound 1 location_score
        insurability_score := pyRound 1 insurability_score }
    verdict := _assign_verdict composite d.strategy_decision
    confidence_level :=
      if confidence_score ≥ 70 then "HIGH"
      else if confidence_score ≥ 40 then "MEDIUM"
      else "LOW" }

/-- A scorer input recommending FLIP with the given flip ROI and all other
components pinned at full score (timeline 8 weeks, ARV confidence 100, 20
bond samples, viable subdivision worth 100000, 15% growth, insurable at zero
premium). -/
def exScoreFlip (roi : ℚ) : ScoreInput where
  strategy_decision := some ⟨some "FLIP"⟩
  flip := some ⟨some roi⟩
  rental := none
  timeline := some ⟨some 8⟩
  arv := some ⟨some 100⟩
  rental_estimate := some ⟨some 20⟩
  subdivision := some ⟨some true, some 100000⟩
  population := some ⟨some 0.15⟩
  insurability := some ⟨some true, some 0⟩

/-- A scorer input with a bare PASS recommendation whose composite lands in
the MAYBE band but below 40 (flip ROI 18, everything else scoring zero except
the 8-week timeline). -/
def exScorePass : ScoreInput where
  strategy_decision := some ⟨some "PASS"⟩
  flip := some ⟨some 18⟩
  rental := none
  timeline := some ⟨some 8⟩
  arv := some ⟨some 0⟩
  rental_estimate := none
  subdivision := none
  population := some ⟨some (-0.05)⟩
  insurability := some ⟨some false, none⟩

/-- A scorer input recommending FLIP with a negative flip ROI. -/
def exScoreNegRoi : ScoreInput where
  strategy_decision := some ⟨some "FLIP"⟩
  flip := some ⟨some (-30)⟩
  rental := none
  timeline := none
  arv := none
  rental_estimate := none
  subdivision := none
  population := none
  insurability := none

/-! ## Renovation estimator (services/analysis/renovation.py) -/

/-- The healthy-homes text-signal sub-record (`signals` key). -/
structure HHSignals where
  has_heating : Option Bool
  has_insulation : Option Bool
  has_ventilation : Option Bool
  mentions_damp : Option Bool
  mentions_mould : Option Bool
  mentions_condensation : Option Bool

/-- The healthy-homes text-signal record attached to the image analysis. -/
structure HHText where
  present : Option Bool
  confidence : Option String
  claims_compliant : Option Bool
  signals : Option HHSignals

/-- The empty healthy-homes record (Python `{}` after `hh or {}`). -/
def hhEmpty : HHText where
  present := none
  confidence := none
  claims_compliant := none
  signals := none

/-- The empty signals record (Python `{}`). -/
def hhSignalsEmpty : HHSignals where
  has_heating := none
  has_insulation := none
  has_ventilation := none
  mentions_damp := none
  mentions_mould := none
  mentions_condensation := none

/-- The vision/image-analysis dict as read by the renovation estimator. -/
structure VisionDict where
  overall_reno_level : Option String
  key_renovation_items : Option (List String)
  structural_concerns : Option (List String)
  exterior_condition : Option String
  interior_quality : Option String
  roof_condition : Option String
  healthy_homes_text : Option HHText

/-- The listing dict as read by the renovation estimator. -/
structure RenoListing where
  floor_area : Option ℚ
  bedrooms : Option ℤ

/-- `COSTS_PER_SQM` (renovation.py): per-sqm rate by renovation level;
`none` for a level that is not a key of the table. -/
def COSTS_PER_SQM (level : String) : Option ℚ :=
  if level = "NONE" then some 0
  else if level = "COSMETIC" then some 500
  else if level = "MODERATE" then some 1200
  else if level = "MAJOR" then some 2000
  else if level = "FULL_GUT" then some 3500
  else none

/-- `_estimate_floor_area` (renovation.py): bedroom-count-derived default. -/
def _estimate_floor_area (listing_data : RenoListing) : ℚ :=
  let b0 := listing_data.bedrooms.getD 3
  let bedrooms := if b0 = 0 then 3 else b0
  if bedrooms = 1 then 60
  else if bedrooms = 2 then 85
  else if bedrooms = 3 then 110
  else if bedrooms = 4 then 140
  else if bedrooms = 5 then 170
  else if bedrooms = 6 then 200
  else 110

/-- Python `str(...)` of a list of strings, lowercased, as the estimator
builds it for keyword scans (quotes written via escapes). -/
def structuralStr (concerns : List String) : String :=
  pyLower ("[" ++ String.intercalate ", "
    (concerns.map (fun s => "\x27" ++ s ++ "\x27")) ++ "]")

/-- `_healthy_homes_allowance` (renovation.py): compliance budget line from
description-derived signals; zero for MAJOR/FULL_GUT renovations. -/
def _healthy_homes_allowance (hh_text : HHText) (reno_level : String) :
    ℚ × String :=
  if reno_level = "MAJOR" ∨ reno_level = "FULL_GUT" then (0, "")
  else if !(hh_text.present.getD false) then
    (4000, "No description signals; include a small rental compliance buffer.")
  else
    let c0 := hh_text.confidence.getD "LOW"
    let confidence := pyUpper (if c0 = "" then "LOW" else c0)
    let claims_compliant := hh_text.claims_compliant.getD false
    let signals := hh_text.signals.getD hhSignalsEmpty
    let has_heating := signals.has_heating.getD false
    let has_insulation := signals.has_insulation.getD false
    let has_ventilation := signals.has_ventilation.getD false
    let risk_moisture := signals.mentions_damp.getD false
      || signals.mentions_mould.getD false
      || signals.mentions_condensation.getD false
    let base : ℚ × List String :=
      if claims_compliant ∧ (confidence = "HIGH" ∨ confidence = "MEDIUM") then
        (500, ["Description claims Healthy Homes compliance; minimal buffer kept for small fixes."])
      else
        let positives := (if has_heating then 1 else 0)
          + (if has_insulation then 1 else 0)
          + (if has_ventilation then 1 else 0)
        if positives ≥ 2 then
          (1500, ["Description mentions multiple Healthy Homes elements; reduced compliance buffer."])
        else if positives = 1 then
          (3000, ["Description mentions one Healthy Homes element; moderate compliance buffer."])
        else
          (4000, ["No clear Healthy Homes elements mentioned; keep a compliance buffer."])
    let withMoisture : ℚ × List String :=
      if risk_moisture then
        (base.1 + 2000,
          base.2 ++ ["Damp/mould/condensation mentioned; add buffer for ventilation/moisture remediation."])
      else base
    (pyMax 0 (pyMin 8000 withMoisture.1), String.intercalate " " withMoisture.2)

/-- Result dict of `estimate_renovation_cost`. -/
structure RenoResult where
  renovation_level : String
  floor_area_used : ℚ
  cost_per_sqm : ℚ
  base_renovation : ℚ
  additional_items : ℚ
  additional_details : List String
  healthy_homes_allowance : ℚ
  healthy_homes_notes : String
  healthy_homes_confidence : String
  contingency : ℚ
  total_estimated : ℚ
  key_items : List String

/-- `estimate_renovation_cost` (renovation.py): base cost by level and floor
area, additive structural line items, healthy-homes allowance and a 15%
contingency. -/
def estimate_renovation_cost (listing_data : RenoListing)
    (image_analysis : VisionDict) : RenoResult :=
  let fa0 := listing_data.floor_area.getD 0
  let floor_area := if fa0 = 0 then _estimate_floor_area listing_data else fa0
  let reno_level0 := image_analysis.overall_reno_level.getD "MODERATE"
  let key_items_raw := image_analysis.key_renovation_items.getD []
  let structural_concerns := image_analysis.structural_concerns.getD []
  let exterior := image_analysis.exterior_condition.getD ""
  let interior := image_analysis.interior_quality.getD ""
  let reno_level :=
    if reno_level0 = "COSMETIC" ∧ (exterior = "EXCELLENT" ∨ exterior = "GOOD")
        ∧ interior = "MODERN" ∧ key_items_raw = [] ∧ structural_concerns = [] then
      "NONE"
    else if (COSTS_PER_SQM reno_level0).isNone then "MODERATE"
    else reno_level0
  let base_cost := floor_area * (COSTS_PER_SQM reno_level).getD 0
  let struct_str := structuralStr structural_concerns
  let roofAdd : ℚ × List String :=
    if image_analysis.roof_condition = some "NEEDS_REPLACE" then
      let roof_cost := floor_area * 1.3 * 80
      (roof_cost, ["Roof replacement: $" ++ fmtComma0 roof_cost])
    else (0, [])
  let wbAdd : ℚ × List String :=
    if structural_concerns.contains "weatherboard_rot"
        || strContains struct_str "weatherboard rot" then
      (15000, ["Weatherboard repair: $15,000"])
    else (0, [])
  let fdAdd : ℚ × List String :=
    if structural_concerns.contains "foundation_issues"
        || strContains struct_str "foundation" then
      if strContains struct_str "shed" || strContains struct_str "outbuilding" then
        (5000, ["Shed/outbuilding foundation: $5,000"])
      else (30000, ["Foundation work: $30,000"])
    else (0, [])
  let moAdd : ℚ × List String :=
    if strContains struct_str "moisture_damage" then
      (10000, ["Moisture damage remediation: $10,000"])
    else (0, [])
  let hh := image_analysis.healthy_homes_text
  let hhPair := _healthy_homes_allowance (hh.getD hhEmpty) reno_level
  let hhAdd : ℚ × List String :=
    if hhPair.1 > 0 then
      (hhPair.1, ["Healthy Homes compliance allowance: $" ++ fmtComma0 hhPair.1])
    else (0, [])
  let additional_costs := roofAdd.1 + wbAdd.1 + fdAdd.1 + moAdd.1 + hhAdd.1
  let additional_items := roofAdd.2 ++ wbAdd.2 ++ fdAdd.2 ++ moAdd.2 ++ hhAdd.2
  let total := base_cost + additional_costs
  let contingency := total * 0.15
  let total_estimated := total + contingency
  let key_items := if key_items_raw = [] then
      (if reno_level = "NONE" then ["No renovation required"]
      else if reno_level = "COSMETIC" then
        ["Interior paint", "Exterior wash & minor touch-ups", "Garden tidy",
          "Minor repairs"]
      else if reno_level = "MODERATE" then
        ["Full interior/exterior paint",
          "Kitchen refresh (benchtops, handles, splashback)",
          "Bathroom update (vanity, taps, mirror)", "New floor coverings",
          "Light fixture updates"]
      else if reno_level = "MAJOR" then
        ["Full kitchen replacement", "Full bathroom replacement",
          "Rewire (electrical)", "Replumb (plumbing)",
          "Interior/exterior paint", "New floor coverings",
          "Insulation upgrade"]
      else if reno_level = "FULL_GUT" then
        ["Strip to frame", "Full rebuild interior", "New kitchen",
          "New bathroom(s)", "Complete rewire & replumb", "New insulation",
          "New linings (GIB)", "New floor coverings", "Exterior recladding"]
      else [])
    else key_items_raw
  { renovation_level := reno_level
    floor_area_used := pyRound 0 floor_area
    cost_per_sqm := (COSTS_PER_SQM reno_level).getD 0
    base_renovation := pyRound 0 base_cost
    additional_items := pyRound 0 additional_costs
    additional_details := additional_items
    healthy_homes_allowance := if hhPair.1 ≠ 0 then pyRound 0 hhPair.1 else 0
    healthy_homes_notes := hhPair.2
    healthy_homes_confidence := ((hh.getD hhEmpty).confidence).getD "LOW"
    contingency := pyRound 0 contingency
    total_estimated := pyRound 0 total_estimated
    key_items := key_items }

/-- A vision result with no fields populated (no healthy-homes text signal,
level defaulting to MODERATE). -/
def exVisionNoHH : VisionDict :=
  ⟨none, none, none, none, none, none, none⟩

/-- A vision result reporting a MAJOR renovation and no healthy-homes text
signal. -/
def exVisionMajor : VisionDict :=
  ⟨some "MAJOR", none, none, none, none, none, none⟩

/-! ## Population filter (services/filters/population_filter.py) -/

/-- `NZ_TA_POPULATIONS` (population_filter.py): territorial-authority
population fallback table, keys lowercase. -/
def NZ_TA_POPULATIONS : List (String × ℕ) :=
  [("auckland", 1720000), ("christchurch city", 394000),
   ("christchurch", 394000), ("wellington city", 215000),
   ("wellington", 215000), ("hamilton city", 180000), ("hamilton", 180000),
   ("tauranga city", 160000), ("tauranga", 160000),
   ("lower hutt city", 112000), ("lower hutt", 112000),
   ("dunedin city", 134000), ("dunedin", 134000),
   ("palmerston north city", 90000), ("palmerston north", 90000),
   ("napier city", 67000), ("napier", 67000), ("hastings district", 88000),
   ("hastings", 88000), ("nelson city", 54000), ("nelson", 54000),
   ("new plymouth district", 87000), ("new plymouth", 87000),
   ("rotorua district", 77000), ("rotorua", 77000),
   ("whangarei district", 100000), ("whangarei", 100000),
   ("invercargill city", 57000), ("invercargill", 57000),
   ("upper hutt city", 46000), ("upper hutt", 46000),
   ("porirua city", 60000), ("porirua", 60000),
   ("kapiti coast district", 57000), ("kapiti coast", 57000),
   ("whanganui district", 48000), ("whanganui", 48000),
   ("gisborne district", 52000), ("gisborne", 52000),
   ("waikato district", 80000), ("waikato", 80000),
   ("waipa district", 58000), ("waipa", 58000),
   ("matamata-piako district", 37000), ("matamata-piako", 37000),
   ("south waikato district", 26000), ("south waikato", 26000),
   ("thames-coromandel district", 32000), ("thames-coromandel", 32000),
   ("hauraki district", 21000), ("hauraki", 21000),
   ("otorohanga district", 10600), ("otorohanga", 10600),
   ("waitomo district", 9800), ("waitomo", 9800),
   ("western bay of plenty district", 56000), ("western bay of plenty", 56000),
   ("whakatane district", 37000), ("whakatane", 37000),
   ("kawerau district", 7500), ("kawerau", 7500),
   ("opotiki district", 10200), ("opotiki", 10200),
   ("selwyn district", 76000), ("selwyn", 76000),
   ("waimakariri district", 68000), ("waimakariri", 68000),
   ("timaru district", 49000), ("timaru", 49000),
   ("ashburton district", 36000), ("ashburton", 36000),
   ("queenstown-lakes district", 47000), ("queenstown-lakes", 47000),
   ("queenstown", 47000), ("taupo district", 40000), ("taupo", 40000),
   ("horowhenua district", 36000), ("horowhenua", 36000),
   ("wairoa district", 8900), ("wairoa", 8900),
   ("central hawke\x27s bay district", 15000),
   ("central hawke\x27s bay", 15000), ("rangitikei district", 16000),
   ("rangitikei", 16000), ("ruapehu district", 13000), ("ruapehu", 13000),
   ("manawatu district", 32000), ("manawatu", 32000),
   ("tararua district", 19000), ("tararua", 19000),
   ("south taranaki district", 28000), ("south taranaki", 28000),
   ("stratford district", 10000), ("stratford", 10000),
   ("far north district", 72000), ("far north", 72000),
   ("kaipara district", 26000), ("kaipara", 26000),
   ("marlborough district", 51000), ("marlborough", 51000),
   ("tasman district", 58000), ("tasman", 58000),
   ("buller district", 10000), ("buller", 10000),
   ("grey district", 14000), ("grey", 14000),
   ("westland district", 8900), ("westland", 8900),
   ("hurunui district", 13500), ("hurunui", 13500),
   ("kaikoura district", 4100), ("kaikoura", 4100),
   ("mackenzie district", 5200), ("mackenzie", 5200),
   ("waimate district", 8200), ("waimate", 8200),
   ("waitaki district", 24000), ("waitaki", 24000),
   ("central otago district", 25000), ("central otago", 25000),
   ("clutha district", 18000), ("clutha", 18000),
   ("southland district", 33000), ("southland", 33000),
   ("gore district", 13000), ("gore", 13000),
   ("chatham islands territory", 700), ("chatham islands", 700)]

/-- `NZ_TA_GROWTH` (population_filter.py): growth multiplier table. -/
def NZ_TA_GROWTH : List (String × ℚ) :=
  [("auckland", 1.08), ("hamilton city", 1.12), ("hamilton", 1.12),
   ("tauranga city", 1.15), ("tauranga", 1.15),
   ("christchurch city", 1.06), ("christchurch", 1.06),
   ("wellington city", 1.03), ("wellington", 1.03),
   ("selwyn district", 1.20), ("selwyn", 1.20),
   ("waimakariri district", 1.12), ("waimakariri", 1.12),
   ("queenstown-lakes district", 1.18), ("queenstown-lakes", 1.18),
   ("waikato district", 1.10), ("waikato", 1.10),
   ("western bay of plenty district", 1.08),
   ("western bay of plenty", 1.08), ("kapiti coast district", 1.06),
   ("kapiti coast", 1.06), ("whangarei district", 1.05),
   ("whangarei", 1.05)]

/-- `_get_population` (population_filter.py): district lookup, `none` when
unknown. -/
def _get_population (district : String) : Option ℕ :=
  NZ_TA_POPULATIONS.lookup (pyStrip (pyLower district))

/-- `_get_growth_rate` (population_filter.py): growth lookup with 1.02
default. -/
def _get_growth_rate (district : String) : ℚ :=
  (NZ_TA_GROWTH.lookup (pyStrip (pyLower district))).getD 1.02

/-- Listing fields read by the population filter. -/
structure PopListing where
  district : Option String
  region : Option String

/-- The population-data dict returned with the filter status (the unknown
case has only the note populated). -/
structure PopData where
  current_pop : Option ℕ
  district : String
  region : String
  growth_rate : Option ℚ
  projected_growth : Option ℚ
  note : Option String
deriving DecidableEq

/-- Python `a or b` on the optional population lookups (0 counts as falsy). -/
def popOr (a b : Option ℕ) : Option ℕ :=
  match a with
  | some v => if v = 0 then b else some v
  | none => b

/-- The population the filter resolves for a listing: district first, then
region. -/
def resolvedPopulation (listing : PopListing) : Option ℕ :=
  popOr (_get_population (listing.district.getD ""))
    (_get_population (listing.region.getD ""))

/-- `filter_population` (population_filter.py): returns
(status, reason, population data).  `min_pop` is `settings.min_population`. -/
def filter_population (min_pop : ℕ) (listing : PopListing) :
    String × String × PopData :=
  let district := listing.district.getD ""
  let region := listing.region.getD ""
  match resolvedPopulation listing with
  | none =>
    let unknown_data : PopData :=
      { current_pop := none, district := district, region := region,
        growth_rate := none, projected_growth := none,
        note := some "Population data unavailable" }
    ("PASS", "", unknown_data)
  | some population =>
    let gd := _get_growth_rate district
    let growth_rate := if gd = 0 then _get_growth_rate region else gd
    let pop_data : PopData :=
      { current_pop := some population, district := district, region := region,
        growth_rate := some growth_rate,
        projected_growth := some (growth_rate - 1), note := none }
    if population < min_pop then
      ("REJECT", "Population " ++ fmtCommaNat population ++ " below "
        ++ fmtCommaNat min_pop ++ " threshold (" ++ district ++ ")", pop_data)
    else if growth_rate < 0.98 then
      ("REJECT", "Declining population in " ++ district ++ " (growth rate: "
        ++ fmt2 growth_rate ++ ")", pop_data)
    else
      ("PASS", "", pop_data)

/-! ## Orchestrator content-hash cache (services/pipeline.py)

The two sha256 content hashes are modelled by their canonicalized
pre-images (the serialized input subsets), treating the digest as injective
on the inputs that occur. -/

/-- Listing fields hashed for the subdivision cache key. -/
structure CacheListing where
  address : Option String
  district : Option String
  region : Option String
  land_area : Option ℚ

/-- `_compute_photos_hash` (pipeline.py): deterministic key of the sorted
photo-URL set capped at the vision API's 6-image limit. -/
def _compute_photos_hash (photos : List String) : List String :=
  stableSort strLtB (photos.take 6)

/-- `_compute_subdivision_input_hash` (pipeline.py): deterministic key of
the (address, district, region, land area) tuple. -/
def _compute_subdivision_input_hash (listing_data : CacheListing) :
    String × String × String × Option ℚ :=
  (listing_data.address.getD "", listing_data.district.getD "",
    listing_data.region.getD "", listing_data.land_area)

/-- The stored Analysis fields consulted by the stage-2 cache checks;
`V` and `S` are the vision-result and subdivision-result payloads. -/
structure StoredAnalysis (V S : Type) where
  image_analysis : Option V
  vision_photos_hash : Option (List String)
  subdivision_analysis : Option S
  subdivision_input_hash : Option (String × String × String × Option ℚ)

/-- The vision cache check of `_run_stage2_analysis` (pipeline.py): reuse the
stored image analysis when present with a matching photos hash, else invoke
the vision collaborator.  The Bool records whether the collaborator ran. -/
def stage2_vision {V S : Type} (existing : Option (StoredAnalysis V S))
    (photos : List String) (client : List String → V) : V × Bool :=
  let photos_hash := _compute_photos_hash photos
  match existing with
  | some ea =>
    match ea.image_analysis with
    | some img =>
      if ea.vision_photos_hash = some photos_hash then (img, false)
      else (client photos, true)
    | none => (client photos, true)
  | none => (client photos, true)

/-- The subdivision cache check of `_run_stage2_analysis` (pipeline.py):
reuse the stored subdivision analysis when present with a matching input
hash, else invoke the zoning analysis.  The Bool records whether the
collaborator ran. -/
def stage2_subdivision {V S : Type} (existing : Option (StoredAnalysis V S))
    (listing_data : CacheListing) (analyze : CacheListing → S) : S × Bool :=
  let subdiv_hash := _compute_subdivision_input_hash listing_data
  match existing with
  | some ea =>
    match ea.subdivision_analysis with
    | some sub =>
      if ea.subdivision_input_hash = some subdiv_hash then (sub, false)
      else (analyze listing_data, true)
    | none => (analyze listing_data, true)
  | none => (analyze listing_data, true)

/-! ## Global re-ranking (pipeline.py `_rerank_all`)

A stored Analysis row for ranking purposes: its primary key (rows are
created in processing order, so ids increase in insertion order), its
composite score (null until scoring) and its rank.  The store's
score-descending query is modelled as a stable descending sort of the
insertion-ordered table. -/

/-- An Analysis row as seen by `_rerank_all`. -/
structure AnalysisRow where
  id : ℕ
  composite_score : Option ℚ
  rank : Option ℕ
deriving DecidableEq

/-- Sort key: the composite score (rows with a score only). -/
def rowScore (a : AnalysisRow) : ℚ :=
  a.composite_score.getD 0

/-- The comparator of the score-descending ordered query. -/
def rowCmp (a b : AnalysisRow) : Bool :=
  decide (rowScore b < rowScore a)

/-- The total order the re-ranked list must realize: score strictly
descending, ties broken by ascending id (insertion order). -/
def rowOrder (a b : AnalysisRow) : Prop :=
  rowScore b < rowScore a ∨ (rowScore a = rowScore b ∧ a.id < b.id)

/-- Assign ranks 1..N down the sorted list. -/
def assignRanks : ℕ → List AnalysisRow → List AnalysisRow
  | _, [] => []
  | i, a :: rest => { a with rank := some i } :: assignRanks (i + 1) rest

/-- `_rerank_all` (pipeline.py): select the rows with a non-null composite
score, order by score descending (stable in insertion order), and assign
dense ranks starting at 1. -/
def _rerank_all (rows : List AnalysisRow) : List AnalysisRow :=
  let scored := rows.filter (fun a => a.composite_score.isSome)
  let sorted := stableSort rowCmp scored
  assignRanks 1 sorted

/-! # Theorems -/

/-- `pyMin` is the lattice minimum on ℚ. -/
theorem pyMin_eq_min (a b : ℚ) : pyMin a b = min a b :=
  (min_def a b).symm

/-- `pyMax` is the lattice maximum on ℚ. -/
theorem pyMax_eq_max (a b : ℚ) : pyMax a b = max a b :=
  (max_def a b).symm

/-- `pyAbs` is the absolute value on ℚ. -/
theorem pyAbs_eq_abs (q : ℚ) : pyAbs q = |q| := by
  rw [pyAbs, abs]
  rcases lt_trichotomy q 0 with h | h | h
  · rw [if_pos h, max_eq_right (by linarith)]
  · subst h
    norm_num
  · rw [if_neg (by linarith), max_eq_left (by linarith)]

/-- C3 (amended). For every flip-model input with positive purchase price and
positive invested cash (price + purchase costs + renovation cost),
`calculate_flip_financials` taxes positive gross profit at the flat 33% rate
(0 otherwise), reports net profit = gross profit - tax, reports ROI as net
profit over invested cash, and sets the meets-15%-ROI flag exactly when that
ROI is at least 15%.  (All reported monetary figures carry the source's
round-to-cents; the flag is computed from the unrounded ROI.) -/
theorem flip_tax_roi_formulas (l : FinListing) (a : FinAnalysis) (o : Option ℚ)
    (h : 0 < l.price_display.getD 0) (hC : 0 < flipCashInvested l a) :
    (calculate_flip_financials l a o).tax =
        pyRound 2 (if flipGrossProfit l a o > 0
          then flipGrossProfit l a o * 0.33 else 0)
      ∧ (calculate_flip_financials l a o).net_profit =
        pyRound 2 (flipGrossProfit l a o
          - (if flipGrossProfit l a o > 0 then flipGrossProfit l a o * 0.33 else 0))
      ∧ (calculate_flip_financials l a o).roi_percentage =
        pyRound 2 (flipNetProfit l a o / flipCashInvested l a * 100)
      ∧ ((calculate_flip_financials l a o).meets_15_roi = true ↔
        (0.15 : ℚ) ≤ flipNetProfit l a o / flipCashInvested l a) := by
  unfold calculate_flip_financials flipNetProfit flipTax flipGrossProfit
    flipTotalExpenses flipSalePrice flipCashInvested flipRenoCost
  unfold flipCashInvested flipRenoCost at hC
  dsimp only
  rw [if_neg (not_le.mpr h)]
  refine ⟨rfl, rfl, ?_, ?_⟩
  · rw [if_pos hC]
  · rw [if_pos hC]
    simp [ge_iff_le]

/-- C3 witness: the spec's end-to-end flip scenario (price 500k, renovation
60k, ARV 700k, 8 weeks, rates 3000) instantiates the formulas. -/
theorem flip_tax_roi_formulas_witness :
    let l : FinListing := ⟨some 500000⟩
    let a : FinAnalysis :=
      { renovation := some ⟨some 60000⟩, arv := some ⟨some 700000⟩,
        timeline := some ⟨some 8⟩, council := some ⟨some 3000⟩,
        insurability := none, rental := none }
    (calculate_flip_financials l a none).tax =
        pyRound 2 (if flipGrossProfit l a none > 0
          then flipGrossProfit l a none * 0.33 else 0)
      ∧ (calculate_flip_financials l a none).net_profit =
        pyRound 2 (flipGrossProfit l a none
          - (if flipGrossProfit l a none > 0 then flipGrossProfit l a none * 0.33 else 0))
      ∧ (calculate_flip_financials l a none).roi_percentage =
        pyRound 2 (flipNetProfit l a none / flipCashInvested l a * 100)
      ∧ ((calculate_flip_financials l a none).meets_15_roi = true ↔
        (0.15 : ℚ) ≤ flipNetProfit l a none / flipCashInvested l a) := by
  exact flip_tax_roi_formulas _ _ none (by norm_num)
    (by norm_num [flipCashInvested, flipRenoCost])

/-- C3 counterexample: with a pathological negative renovation estimate the
invested cash is negative and the code reports ROI 0, not net profit divided
by (price + purchase costs + renovation cost), which rounds to -54.8 here. -/
theorem flip_roi_claim_counterexample :
    let l : FinListing := ⟨some 100000⟩
    let a : FinAnalysis :=
      { renovation := some ⟨some (-1000000)⟩, arv := some ⟨some 1⟩,
        timeline := some ⟨some 0⟩, council := some ⟨some 3000⟩,
        insurability := none, rental := none }
    (calculate_flip_financials l a none).roi_percentage = 0
      ∧ pyRound 2 (flipNetProfit l a none / flipCashInvested l a * 100) = -54.8
      ∧ (0 : ℚ) ≠ -54.8 := by
  refine ⟨?_, ?_, by norm_num⟩
  · norm_num [calculate_flip_financials, pyRound, pyRoundInt, pow10]
  · norm_num [flipNetProfit, flipTax, flipGrossProfit, flipTotalExpenses,
      flipSalePrice, flipCashInvested, flipRenoCost, pyRound, pyRoundInt, pow10]

/-- C1 (amended). Under MODERATE risk tolerance and a market that does not
disfavor flipping (no market signal, or trend STABLE or HEATING),
`decide_strategy` follows the ordered rule with effective thresholds: the
flip ROI threshold is 15, nudged down to 14 under HEATING, and the rental
yield threshold is 9; if both thresholds are met it picks FLIP when flip ROI
exceeds 1.5x the rental yield, else RENTAL; else FLIP if only the flip ROI
threshold is met; else RENTAL if only the yield threshold is met; else PASS —
and the returned label carries the `_WITH_SUBDIVISION` suffix when the
subdivision result is viable with positive net value-add.  In particular,
flip ROI 20%, rental yield 5%, STABLE market gives FLIP with a reason string
citing both figures. -/
theorem decide_strategy_moderate_rule (flip : FlipResult)
    (rental : RentalResult) (sub : SubdivDict) (mc : Option MarketDict)
    (h : mc.map (fun m => m.trend.getD "STABLE") = none
      ∨ mc.map (fun m => m.trend.getD "STABLE") = some "STABLE"
      ∨ mc.map (fun m => m.trend.getD "STABLE") = some "HEATING") :
    ((decide_strategy flip rental sub mc "MODERATE").recommended_strategy =
      (let fr := flip.roi_percentage
       let ry := rental.gross_yield_percentage
       let frT : ℚ :=
         if mc.map (fun m => m.trend.getD "STABLE") = some "HEATING" then 14
         else 15
       let base :=
         if fr ≥ frT then
           (if ry ≥ 9 then (if fr > ry * 1.5 then "FLIP" else "RENTAL")
            else "FLIP")
         else if ry ≥ 9 then "RENTAL" else "PASS"
       if sub.subdivision_potential.getD false ∧ sub.net_value_add.getD 0 > 0
       then base ++ "_WITH_SUBDIVISION"
       else base))
    ∧ (decide_strategy (mkFlipRoi 20) (mkRentalYield 5) noSubdiv
        (some ⟨some "STABLE"⟩) "MODERATE").recommended_strategy = "FLIP"
    ∧ (decide_strategy (mkFlipRoi 20) (mkRentalYield 5) noSubdiv
        (some ⟨some "STABLE"⟩) "MODERATE").reason
      = "ROI 20.0% meets target, yield 5.0% below 9%" := by
  refine ⟨?_, ?_, ?_⟩
  · rcases h with h | h | h
    · have hmc : mc = none := Option.map_eq_none'.mp h
      subst hmc
      simp [decide_strategy, apply_ite Prod.fst]
    · obtain ⟨m, rfl, hm⟩ := Option.map_eq_some'.mp h
      simp [decide_strategy, hm, apply_ite Prod.fst]
    · obtain ⟨m, rfl, hm⟩ := Option.map_eq_some'.mp h
      have hiff : (15 : ℚ) ≤ flip.roi_percentage + 1 ↔
          14 ≤ flip.roi_percentage := by
        constructor <;> intro h14 <;> linarith
      simp [decide_strategy, hm, apply_ite Prod.fst, hiff]
  · simp [decide_strategy, mkFlipRoi, mkRentalYield, noSubdiv,
      _empty_flip_result, _empty_rental_result]
    norm_num
  · simp [decide_strategy, mkFlipRoi, mkRentalYield, noSubdiv,
      _empty_flip_result, _empty_rental_result]
    norm_num [fmt1, pyRoundInt, pyStr]
    rfl

/-- C1 witness: both thresholds met under STABLE with flip ROI 16 and yield
12 (16 is not above 1.5x12) picks RENTAL, suffixed for a viable
subdivision. -/
theorem decide_strategy_moderate_rule_witness :
    (decide_strategy (mkFlipRoi 16) (mkRentalYield 12) ⟨some true, some 1000⟩
      (some ⟨some "STABLE"⟩) "MODERATE").recommended_strategy
      = "RENTAL_WITH_SUBDIVISION" := by
  have h := decide_strategy_moderate_rule (mkFlipRoi 16) (mkRentalYield 12)
    ⟨some true, some 1000⟩ (some ⟨some "STABLE"⟩) (Or.inr (Or.inl rfl))
  rw [h.1]
  simp [mkFlipRoi, mkRentalYield, _empty_flip_result, _empty_rental_result]
  norm_num
  rfl

/-- C1 counterexample: the claim's fixed-threshold, bare-label rule says PASS
at flip ROI 14.5% and yield 0%, but under a HEATING market the code's
effective flip threshold is 14, so it returns FLIP — and with a viable
subdivision the label is FLIP_WITH_SUBDIVISION, not one of FLIP, RENTAL,
PASS. -/
theorem decide_strategy_claim_counterexample :
    claimedModerateStrategy 14.5 0 = "PASS"
      ∧ (decide_strategy (mkFlipRoi 14.5) (mkRentalYield 0)
        ⟨some true, some 50000⟩ (some ⟨some "HEATING"⟩)
        "MODERATE").recommended_strategy = "FLIP_WITH_SUBDIVISION"
      ∧ (decide_strategy (mkFlipRoi 14.5) (mkRentalYield 0) noSubdiv
        (some ⟨some "HEATING"⟩) "MODERATE").recommended_strategy = "FLIP"
      ∧ ("FLIP_WITH_SUBDIVISION" ≠ "PASS") ∧ ("FLIP" ≠ "PASS") := by
  refine ⟨?_, ?_, ?_, by decide, by decide⟩
  · norm_num [claimedModerateStrategy]
  · simp [decide_strategy, mkFlipRoi, mkRentalYield,
      _empty_flip_result, _empty_rental_result]
    norm_num
    rfl
  · simp [decide_strategy, mkFlipRoi, mkRentalYield, noSubdiv,
      _empty_flip_result, _empty_rental_result]
    norm_num

/-- C4 (amended). Non-positive purchase price makes the flip model return the
documented empty result, and non-positive purchase price or non-positive
weekly rent makes the rental model return its documented empty result; in
those results every monetary/percentage field is zero, but the strategy label
is kept, the interest-rate field keeps its default (0.054 flip, 0.048
rental), the rental vacancy-weeks field stays 2, and the threshold flags are
false. -/
theorem empty_results_on_nonpositive_input :
    (∀ (l : FinListing) (a : FinAnalysis) (o : Option ℚ),
      l.price_display.getD 0 ≤ 0 →
        calculate_flip_financials l a o = _empty_flip_result)
    ∧ (∀ (l : FinListing) (a : FinAnalysis) (o : Option ℚ),
      l.price_display.getD 0 ≤ 0
          ∨ (a.rental.bind (·.estimated_weekly_rent)).getD 0 ≤ 0 →
        calculate_rental_financials l a o = _empty_rental_result)
    ∧ _empty_flip_result.purchase_price = 0
    ∧ _empty_flip_result.renovation_cost = 0
    ∧ _empty_flip_result.gst_refund = 0
    ∧ _empty_flip_result.net_reno_cost = 0
    ∧ _empty_flip_result.arv = 0
    ∧ _empty_flip_result.timeline_weeks = 0
    ∧ _empty_flip_result.timeline_months = 0
    ∧ _empty_flip_result.interest_cost = 0
    ∧ _empty_flip_result.insurance_cost = 0
    ∧ _empty_flip_result.rates_cost = 0
    ∧ _empty_flip_result.purchase_costs = 0
    ∧ _empty_flip_result.commission = 0
    ∧ _empty_flip_result.legal_sell = 0
    ∧ _empty_flip_result.marketing = 0
    ∧ _empty_flip_result.accounting = 0
    ∧ _empty_flip_result.total_expenses = 0
    ∧ _empty_flip_result.gross_profit = 0
    ∧ _empty_flip_result.tax = 0
    ∧ _empty_flip_result.net_profit = 0
    ∧ _empty_flip_result.cash_invested = 0
    ∧ _empty_flip_result.roi_percentage = 0
    ∧ _empty_flip_result.strategy = "FLIP"
    ∧ _empty_flip_result.interest_rate = 0.054
    ∧ _empty_flip_result.meets_15_roi = false
    ∧ _empty_rental_result.purchase_price = 0
    ∧ _empty_rental_result.renovation_cost = 0
    ∧ _empty_rental_result.purchase_costs = 0
    ∧ _empty_rental_result.total_invested = 0
    ∧ _empty_rental_result.target_valuation = 0
    ∧ _empty_rental_result.weekly_rent = 0
    ∧ _empty_rental_result.annual_rent = 0
    ∧ _empty_rental_result.accounting = 0
    ∧ _empty_rental_result.bank_fees = 0
    ∧ _empty_rental_result.insurance = 0
    ∧ _empty_rental_result.annual_interest = 0
    ∧ _empty_rental_result.tax_deductible_interest = 0
    ∧ _empty_rental_result.property_management = 0
    ∧ _empty_rental_result.annual_rates = 0
    ∧ _empty_rental_result.repairs = 0
    ∧ _empty_rental_result.total_expenses = 0
    ∧ _empty_rental_result.net_cash_surplus = 0
    ∧ _empty_rental_result.chattels_depreciation = 0
    ∧ _empty_rental_result.taxable_income = 0
    ∧ _empty_rental_result.tax_refund = 0
    ∧ _empty_rental_result.tax_owed = 0
    ∧ _empty_rental_result.overall_annual_cashflow = 0
    ∧ _empty_rental_result.gross_yield_percentage = 0
    ∧ _empty_rental_result.net_yield_percentage = 0
    ∧ _empty_rental_result.strategy = "RENTAL"
    ∧ _empty_rental_result.interest_rate = 0.048
    ∧ _empty_rental_result.vacancy_weeks = 2
    ∧ _empty_rental_result.meets_9_yield = false := by
  refine ⟨?_, ?_, rfl, rfl, rfl, rfl, rfl, rfl, rfl, rfl, rfl, rfl, rfl, rfl,
    rfl, rfl, rfl, rfl, rfl, rfl, rfl, rfl, rfl, rfl, rfl, rfl, rfl, rfl, rfl,
    rfl, rfl, rfl, rfl, rfl, rfl, rfl, rfl, rfl, rfl, rfl, rfl, rfl, rfl, rfl,
    rfl, rfl, rfl, rfl, rfl, rfl, rfl, rfl, rfl, rfl⟩
  · intro l a o h
    unfold calculate_flip_financials
    dsimp only
    rw [if_pos h]
  · intro l a o h
    unfold calculate_rental_financials
    dsimp only
    rw [if_pos h]

/-- C4 witness: a zero-price listing yields the empty flip result, and a
positive-price listing with zero weekly rent yields the empty rental
result. -/
theorem empty_results_on_nonpositive_input_witness :
    calculate_flip_financials ⟨some 0⟩
        ⟨none, none, none, none, none, none⟩ none = _empty_flip_result
      ∧ calculate_rental_financials ⟨some 300000⟩
        ⟨none, none, none, none, none, some ⟨some 0⟩⟩ none
        = _empty_rental_result := by
  constructor
  · exact empty_results_on_nonpositive_input.1 _ _ none (by norm_num)
  · exact empty_results_on_nonpositive_input.2.1 _ _ none (Or.inr (by norm_num))

/-- C4 counterexample: the claimed all-zero shape is false — on zero price
the flip result's interest-rate field is 0.054 and the rental result's
vacancy-weeks field is 2, neither of which is zero. -/
theorem all_zero_claim_counterexample :
    (calculate_flip_financials ⟨some 0⟩
        ⟨none, none, none, none, none, none⟩ none).interest_rate = 0.054
      ∧ (0.054 : ℚ) ≠ 0
      ∧ (calculate_rental_financials ⟨some 0⟩
        ⟨none, none, none, none, none, none⟩ none).vacancy_weeks = 2
      ∧ (2 : ℚ) ≠ 0 := by
  refine ⟨?_, by norm_num, ?_, by norm_num⟩
  · norm_num [calculate_flip_financials, _empty_flip_result]
  · norm_num [calculate_rental_financials, _empty_rental_result]

/-- C2. For every scorer input, the reported composite score is the weighted
sum of the six component scores with the fixed weights (ROI .40, timeline
.15, confidence .15, subdivision .15, location growth .10, insurability .05;
the report rounds it to one decimal), and the verdict is assigned from that
weighted sum by the bands ≥75 STRONG_BUY, ≥55 BUY, ≥35 MAYBE, else PASS —
with a bare PASS recommendation and composite below 40 forcing PASS.  Band
edges are inclusive at the lower bound: composite exactly 75 gives
STRONG_BUY and 74.99 gives BUY, and a bare PASS at composite 39 is forced
to PASS out of the MAYBE band. -/
theorem composite_weighted_sum_and_verdict_bands :
    (∀ d : ScoreInput,
      (calculate_composite_score d).composite_score
          = pyRound 1 (weightedComposite d)
        ∧ (calculate_composite_score d).verdict =
          (if "PASS" = scRecommended d ∧ weightedComposite d < 40 then "PASS"
           else if weightedComposite d ≥ 75 then "STRONG_BUY"
           else if weightedComposite d ≥ 55 then "BUY"
           else if weightedComposite d ≥ 35 then "MAYBE"
           else "PASS"))
      ∧ weightedComposite (exScoreFlip 11.25) = 75
      ∧ (calculate_composite_score (exScoreFlip 11.25)).verdict = "STRONG_BUY"
      ∧ weightedComposite (exScoreFlip 11.2425) = 74.99
      ∧ (calculate_composite_score (exScoreFlip 11.2425)).verdict = "BUY"
      ∧ scRecommended exScorePass = "PASS"
      ∧ weightedComposite exScorePass = 39
      ∧ (calculate_composite_score exScorePass).verdict = "PASS" := by
  refine ⟨fun d => ⟨rfl, rfl⟩, ?_, ?_, ?_, ?_, rfl, ?_, ?_⟩
  · simp [weightedComposite, roiScoreOf, timelineScoreOf, confidenceScoreOf,
      subdivisionScoreOf, locationScoreOf, insurabilityScoreOf, exScoreFlip,
      scRecommended, pyMin, pyMax,
      (by decide : strContains "FLIP" "FLIP" = true)]
    norm_num
  · simp [calculate_composite_score, _assign_verdict, roiScoreOf,
      timelineScoreOf, confidenceScoreOf, subdivisionScoreOf, locationScoreOf,
      insurabilityScoreOf, exScoreFlip, scRecommended, pyMin, pyMax,
      (by decide : strContains "FLIP" "FLIP" = true)]
    norm_num
  · simp [weightedComposite, roiScoreOf, timelineScoreOf, confidenceScoreOf,
      subdivisionScoreOf, locationScoreOf, insurabilityScoreOf, exScoreFlip,
      scRecommended, pyMin, pyMax,
      (by decide : strContains "FLIP" "FLIP" = true)]
    norm_num
  · simp [calculate_composite_score, _assign_verdict, roiScoreOf,
      timelineScoreOf, confidenceScoreOf, subdivisionScoreOf, locationScoreOf,
      insurabilityScoreOf, exScoreFlip, scRecommended, pyMin, pyMax,
      (by decide : strContains "FLIP" "FLIP" = true)]
    norm_num
  · simp [weightedComposite, roiScoreOf, timelineScoreOf, confidenceScoreOf,
      subdivisionScoreOf, locationScoreOf, insurabilityScoreOf, exScorePass,
      scRecommended, pyMin, pyMax,
      (by decide : strContains "PASS" "FLIP" = false),
      (by decide : strContains "PASS" "RENTAL" = false)]
    norm_num
  · simp [calculate_composite_score, _assign_verdict, roiScoreOf,
      timelineScoreOf, confidenceScoreOf, subdivisionScoreOf, locationScoreOf,
      insurabilityScoreOf, exScorePass, scRecommended, pyMin, pyMax,
      (by decide : strContains "PASS" "FLIP" = false),
      (by decide : strContains "PASS" "RENTAL" = false)]
    norm_num

/-- C7 (amended). Each of the six component scores lies in [0, 100] provided
the raw inputs it reads are in their natural ranges: nonnegative flip ROI and
rental yield, ARV confidence within [0, 100], nonnegative bond sample count,
nonnegative subdivision net value-add, and nonnegative insurance premium.
(The timeline, location-growth and insurability-when-uninsurable components
are clamped unconditionally; the others can leave [0, 100] on negative
inputs, see the counterexample.) -/
theorem component_scores_in_range (d : ScoreInput)
    (hroi : 0 ≤ (d.flip.bind (·.roi_percentage)).getD 0)
    (hyield : 0 ≤ (d.rental.bind (·.gross_yield_percentage)).getD 0)
    (harv0 : 0 ≤ (d.arv.bind (·.confidence_score)).getD 50)
    (harv1 : (d.arv.bind (·.confidence_score)).getD 50 ≤ 100)
    (hsamp : 0 ≤ (d.rental_estimate.bind (·.bond_samples)).getD 0)
    (hsub : 0 ≤ (d.subdivision.bind (·.net_value_add)).getD 0)
    (hprem : 0 ≤ (d.insurability.bind (·.annual_insurance)).getD 2000) :
    (0 ≤ roiScoreOf d ∧ roiScoreOf d ≤ 100)
      ∧ (0 ≤ timelineScoreOf d ∧ timelineScoreOf d ≤ 100)
      ∧ (0 ≤ confidenceScoreOf d ∧ confidenceScoreOf d ≤ 100)
      ∧ (0 ≤ subdivisionScoreOf d ∧ subdivisionScoreOf d ≤ 100)
      ∧ (0 ≤ locationScoreOf d ∧ locationScoreOf d ≤ 100)
      ∧ (0 ≤ insurabilityScoreOf d ∧ insurabilityScoreOf d ≤ 100) := by
  refine ⟨?_, ?_, ?_, ?_, ?_, ?_⟩
  · simp only [roiScoreOf, pyMin, pyMax]
    split_ifs <;> constructor <;> linarith
  · simp only [timelineScoreOf, pyMax]
    split_ifs <;> constructor <;> linarith
  · simp only [confidenceScoreOf, pyMin]
    split_ifs <;> constructor <;> linarith
  · simp only [subdivisionScoreOf, pyMin]
    split_ifs <;> constructor <;> linarith
  · simp only [locationScoreOf, pyMin, pyMax]
    split_ifs <;> constructor <;> linarith
  · simp only [insurabilityScoreOf, pyMax]
    split_ifs <;> constructor <;> linarith

/-- C7 witness: the in-range inputs of the STRONG_BUY example keep all six
components within [0, 100]. -/
theorem component_scores_in_range_witness :
    (0 ≤ roiScoreOf (exScoreFlip 11.25) ∧ roiScoreOf (exScoreFlip 11.25) ≤ 100)
      ∧ (0 ≤ timelineScoreOf (exScoreFlip 11.25)
        ∧ timelineScoreOf (exScoreFlip 11.25) ≤ 100)
      ∧ (0 ≤ confidenceScoreOf (exScoreFlip 11.25)
        ∧ confidenceScoreOf (exScoreFlip 11.25) ≤ 100)
      ∧ (0 ≤ subdivisionScoreOf (exScoreFlip 11.25)
        ∧ subdivisionScoreOf (exScoreFlip 11.25) ≤ 100)
      ∧ (0 ≤ locationScoreOf (exScoreFlip 11.25)
        ∧ locationScoreOf (exScoreFlip 11.25) ≤ 100)
      ∧ (0 ≤ insurabilityScoreOf (exScoreFlip 11.25)
        ∧ insurabilityScoreOf (exScoreFlip 11.25) ≤ 100) :=
  component_scores_in_range (exScoreFlip 11.25)
    (by norm_num [exScoreFlip]) (by norm_num [exScoreFlip])
    (by norm_num [exScoreFlip]) (by norm_num [exScoreFlip])
    (by norm_num [exScoreFlip]) (by norm_num [exScoreFlip])
    (by norm_num [exScoreFlip])

/-- C7 counterexample: a FLIP recommendation with flip ROI -30% drives the
ROI component score to -100, outside the claimed 0..100 range (both as
computed and as reported). -/
theorem component_scores_claim_counterexample :
    roiScoreOf exScoreNegRoi = -100
      ∧ (calculate_composite_score exScoreNegRoi).component_scores.roi_score
        = -100
      ∧ ¬ (0 ≤ (-100 : ℚ)) := by
  refine ⟨?_, ?_, by norm_num⟩
  · simp [roiScoreOf, exScoreNegRoi, scRecommended, pyMin,
      (by decide : strContains "FLIP" "FLIP" = true)]
  · simp [calculate_composite_score, roiScoreOf, exScoreNegRoi, scRecommended,
      pyMin, (by decide : strContains "FLIP" "FLIP" = true),
      pyRound, pyRoundInt, pow10]
    norm_num [Int.fract]

/-- When the description produced no healthy-homes signal (record absent or
not marked present), the allowance is 4000 unless the renovation level is
MAJOR or FULL_GUT, where it is 0. -/
theorem hh_allowance_of_not_present (hh : HHText) (level : String)
    (h : hh.present.getD false = false) :
    (_healthy_homes_allowance hh level).1 =
      if level = "MAJOR" ∨ level = "FULL_GUT" then 0 else 4000 := by
  unfold _healthy_homes_allowance
  split_ifs with h1 h2 <;> simp_all

/-- C10. When the listing description produced no healthy-homes text signal
(the record is absent or not marked present), the renovation estimate still
carries a healthy-homes compliance allowance of exactly 4000, except that a
MAJOR or FULL_GUT renovation level zeroes it. -/
theorem healthy_homes_default_allowance (listing : RenoListing)
    (img : VisionDict)
    (h : (img.healthy_homes_text.getD hhEmpty).present.getD false = false) :
    (estimate_renovation_cost listing img).healthy_homes_allowance =
      (if (estimate_renovation_cost listing img).renovation_level = "MAJOR"
          ∨ (estimate_renovation_cost listing img).renovation_level
            = "FULL_GUT"
       then 0 else 4000) := by
  unfold estimate_renovation_cost
  dsimp only
  rw [hh_allowance_of_not_present _ _ h]
  split_ifs <;>
    first
      | rfl
      | (norm_num [pyRound, pyRoundInt, pow10]; done)
      | exact absurd (by norm_num : (4000 : ℚ) ≠ 0) ‹¬(4000 : ℚ) ≠ 0›

/-- C10 witness: with no healthy-homes signal, the default MODERATE estimate
carries allowance 4000 and a MAJOR estimate carries allowance 0. -/
theorem healthy_homes_default_allowance_witness :
    (estimate_renovation_cost ⟨none, none⟩ exVisionNoHH).renovation_level
        = "MODERATE"
      ∧ (estimate_renovation_cost ⟨none, none⟩
          exVisionNoHH).healthy_homes_allowance = 4000
      ∧ (estimate_renovation_cost ⟨none, none⟩ exVisionMajor).renovation_level
        = "MAJOR"
      ∧ (estimate_renovation_cost ⟨none, none⟩
          exVisionMajor).healthy_homes_allowance = 0 := by
  have h1 := healthy_homes_default_allowance ⟨none, none⟩ exVisionNoHH rfl
  have h2 := healthy_homes_default_allowance ⟨none, none⟩ exVisionMajor rfl
  have hl1 : (estimate_renovation_cost ⟨none, none⟩
      exVisionNoHH).renovation_level = "MODERATE" := by decide
  have hl2 : (estimate_renovation_cost ⟨none, none⟩
      exVisionMajor).renovation_level = "MAJOR" := by decide
  refine ⟨hl1, ?_, hl2, ?_⟩
  · rw [h1, hl1]
    decide
  · rw [h2, hl2]
    decide

/-- A key found in an association list satisfies any property all the list's
values satisfy. -/
theorem lookup_forall {α β : Type} [BEq α] (l : List (α × β)) (P : β → Prop)
    (hl : ∀ kv ∈ l, P kv.2) (k : α) (v : β) (h : l.lookup k = some v) :
    P v := by
  induction l with
  | nil => simp [List.lookup] at h
  | cons a tl ih =>
    rw [List.lookup] at h
    by_cases hk : k == a.1
    · simp only [hk] at h
      cases h
      exact hl a (List.mem_cons_self a tl)
    · simp only [Bool.not_eq_true] at hk
      rw [hk] at h
      exact ih (fun kv hkv => hl kv (List.mem_cons_of_mem a hkv)) h

/-- C8. Every growth value in the built-in table is at least 1.03, the
default for districts absent from the table is 1.02, every resolved growth
rate is at least 1.02 (all above the 0.98 decline cutoff), and consequently
`filter_population` returns REJECT only when the resolved population is
below the configured minimum — the declining-growth rejection branch is
unreachable. -/
theorem population_filter_rejects_only_below_min :
    (∀ kv ∈ NZ_TA_GROWTH, (1.03 : ℚ) ≤ kv.2)
      ∧ (∀ d : String, NZ_TA_GROWTH.lookup (pyStrip (pyLower d)) = none →
        _get_growth_rate d = 1.02)
      ∧ (∀ d : String, (1.02 : ℚ) ≤ _get_growth_rate d)
      ∧ (∀ (min_pop : ℕ) (listing : PopListing),
        (filter_population min_pop listing).1 = "REJECT" →
          ∃ p, resolvedPopulation listing = some p ∧ p < min_pop) := by
  have htab : ∀ kv ∈ NZ_TA_GROWTH, (1.03 : ℚ) ≤ kv.2 := by
    intro kv hkv
    fin_cases hkv <;> norm_num
  have hrate : ∀ d : String, (1.02 : ℚ) ≤ _get_growth_rate d := by
    intro d
    unfold _get_growth_rate
    cases hl : NZ_TA_GROWTH.lookup (pyStrip (pyLower d)) with
    | none => norm_num
    | some v =>
      have h3 := lookup_forall NZ_TA_GROWTH (fun v => (1.03 : ℚ) ≤ v) htab
        (pyStrip (pyLower d)) v hl
      simp only [Option.getD_some]
      linarith
  refine ⟨htab, ?_, hrate, ?_⟩
  · intro d hl
    unfold _get_growth_rate
    rw [hl]
    rfl
  · intro min_pop listing hrej
    unfold filter_population at hrej
    cases hres : resolvedPopulation listing with
    | none =>
      rw [hres] at hrej
      simp at hrej
    | some p =>
      rw [hres] at hrej
      dsimp only at hrej
      by_cases hp : p < min_pop
      · exact ⟨p, rfl, hp⟩
      · exfalso
        rw [if_neg hp] at hrej
        have hgd := hrate (listing.district.getD "")
        have hne : ¬ (_get_growth_rate (listing.district.getD "") = 0) := by
          intro h0
          rw [h0] at hgd
          norm_num at hgd
        rw [if_neg hne, if_neg (by linarith : ¬ _get_growth_rate
          (listing.district.getD "") < 0.98)] at hrej
        simp at hrej

/-- C8 witness: Kawerau (population 7500 in the table) is rejected under a
50000 minimum, and the rejection indeed comes from the population bound. -/
theorem population_filter_rejects_only_below_min_witness :
    ∃ p, resolvedPopulation ⟨some "kawerau", none⟩ = some p ∧ p < 50000 :=
  population_filter_rejects_only_below_min.2.2.2 50000
    ⟨some "kawerau", none⟩ (by decide)

/-- Inserting with `insertStable` permutes consing. -/
theorem insertStable_perm {α : Type} (cmp : α → α → Bool) (x : α) :
    ∀ l : List α, List.Perm (insertStable cmp x l) (x :: l) := by
  intro l
  induction l with
  | nil => rfl
  | cons y ys ih =>
    rw [insertStable]
    by_cases h : cmp x y
    · rw [if_pos h]
    · rw [if_neg h]
      exact (ih.cons y).trans (List.Perm.swap x y ys)

/-- Membership in an `insertStable` result. -/
theorem mem_insertStable {α : Type} (cmp : α → α → Bool) (x a : α)
    (l : List α) : a ∈ insertStable cmp x l ↔ a = x ∨ a ∈ l := by
  rw [(insertStable_perm cmp x l).mem_iff, List.mem_cons]

/-- The insertion fold permutes appending. -/
theorem foldl_insertStable_perm {α : Type} (cmp : α → α → Bool) :
    ∀ (l acc : List α),
      List.Perm (l.foldl (fun acc x => insertStable cmp x acc) acc)
        (acc ++ l) := by
  intro l
  induction l with
  | nil => simp
  | cons x xs ih =>
    intro acc
    exact (ih _).trans
      (((insertStable_perm cmp x acc).append_right xs).trans
        List.perm_middle.symm)

/-- `stableSort` permutes its input. -/
theorem stableSort_perm {α : Type} (cmp : α → α → Bool) (l : List α) :
    List.Perm (stableSort cmp l) l := by
  simpa using foldl_insertStable_perm cmp l []

/-- Inserting a row with a larger id than everything present preserves the
score-desc/id-asc order. -/
theorem insertStable_rowOrder (x : AnalysisRow) (l : List AnalysisRow)
    (hl : l.Pairwise rowOrder) (hid : ∀ y ∈ l, y.id < x.id) :
    (insertStable rowCmp x l).Pairwise rowOrder := by
  induction l with
  | nil => simp [insertStable]
  | cons y ys ih =>
    rw [insertStable]
    by_cases h : rowCmp x y
    · rw [if_pos h]
      have hxy : rowScore y < rowScore x := by simpa [rowCmp] using h
      refine List.Pairwise.cons ?_ hl
      intro z hz
      rcases List.mem_cons.mp hz with rfl | hz'
      · exact Or.inl hxy
      · rcases (List.pairwise_cons.mp hl).1 z hz' with h1 | ⟨h1, _⟩
        · exact Or.inl (h1.trans hxy)
        · exact Or.inl (h1 ▸ hxy)
    · rw [if_neg h]
      have hxy : ¬ rowScore y < rowScore x := by simpa [rowCmp] using h
      refine List.Pairwise.cons ?_
        (ih (List.pairwise_cons.mp hl).2
          (fun z hz => hid z (List.mem_cons_of_mem _ hz)))
      intro z hz
      rcases (mem_insertStable _ _ _ _).mp hz with rfl | hz'
      · rcases (not_lt.mp hxy).lt_or_eq with h1 | h1
        · exact Or.inl h1
        · exact Or.inr ⟨h1.symm, hid y (List.mem_cons_self y ys)⟩
      · exact (List.pairwise_cons.mp hl).1 z hz'

/-- The insertion fold sorts an id-increasing input into the
score-desc/id-asc order (the stability invariant). -/
theorem foldl_insertStable_rowOrder :
    ∀ (l acc : List AnalysisRow), acc.Pairwise rowOrder →
      (∀ a ∈ acc, ∀ x ∈ l, a.id < x.id) →
      l.Pairwise (fun a b => a.id < b.id) →
      (l.foldl (fun acc x => insertStable rowCmp x acc) acc).Pairwise
        rowOrder := by
  intro l
  induction l with
  | nil => exact fun acc hacc _ _ => hacc
  | cons x xs ih =>
    intro acc hacc hrel hL
    refine ih (insertStable rowCmp x acc)
      (insertStable_rowOrder x acc hacc
        (fun y hy => hrel y hy x (List.mem_cons_self x xs)))
      ?_ (List.pairwise_cons.mp hL).2
    intro a ha z hz
    rcases (mem_insertStable _ _ _ _).mp ha with rfl | ha'
    · exact (List.pairwise_cons.mp hL).1 z hz
    · exact hrel a ha' z (List.mem_cons_of_mem _ hz)

/-- The stable descending sort of id-increasing rows is fully ordered by
score descending with ties in id (insertion) order. -/
theorem stableSort_rowOrder (l : List AnalysisRow)
    (h : l.Pairwise (fun a b => a.id < b.id)) :
    (stableSort rowCmp l).Pairwise rowOrder := by
  refine foldl_insertStable_rowOrder l [] List.Pairwise.nil ?_ h
  simp

/-- `assignRanks i` writes the consecutive ranks i, i+1, ... -/
theorem assignRanks_map_rank :
    ∀ (i : ℕ) (l : List AnalysisRow),
      (assignRanks i l).map (·.rank) = (List.range' i l.length).map some := by
  intro i l
  induction l generalizing i with
  | nil => rfl
  | cons a tl ih =>
    rw [assignRanks, List.map_cons, ih (i + 1)]
    rfl

/-- `assignRanks` only changes the `rank` field. -/
theorem assignRanks_map_proj {β : Type} (f : AnalysisRow → β)
    (hf : ∀ (a : AnalysisRow) (i : ℕ), f { a with rank := some i } = f a) :
    ∀ (i : ℕ) (l : List AnalysisRow), (assignRanks i l).map f = l.map f := by
  intro i l
  induction l generalizing i with
  | nil => rfl
  | cons a tl ih =>
    rw [assignRanks]
    simp [hf, ih (i + 1)]

/-- C6. For every insertion-ordered table of Analysis rows (ids strictly
increasing), re-ranking assigns exactly the dense rank sequence 1..N over
exactly the rows holding a non-null composite score (their id/score pairs
are a permutation of the filtered table), ordered by composite score
descending with ties broken by insertion order. -/
theorem rerank_dense_sorted_stable (rows : List AnalysisRow)
    (hids : rows.Pairwise (fun a b => a.id < b.id)) :
    (_rerank_all rows).map (·.rank)
        = (List.range' 1
          (rows.filter (fun a => a.composite_score.isSome)).length).map some
      ∧ List.Perm
        ((_rerank_all rows).map (fun a => (a.id, a.composite_score)))
        ((rows.filter (fun a => a.composite_score.isSome)).map
          (fun a => (a.id, a.composite_score)))
      ∧ ((_rerank_all rows).map (fun a => (a.id, rowScore a))).Pairwise
        (fun x y => y.2 < x.2 ∨ (x.2 = y.2 ∧ x.1 < y.1)) := by
  have hperm := stableSort_perm rowCmp
    (rows.filter (fun a => a.composite_score.isSome))
  refine ⟨?_, ?_, ?_⟩
  · unfold _rerank_all
    dsimp only
    rw [assignRanks_map_rank, hperm.length_eq]
  · unfold _rerank_all
    dsimp only
    rw [assignRanks_map_proj (fun a => (a.id, a.composite_score))
      (fun a i => rfl)]
    exact hperm.map _
  · unfold _rerank_all
    dsimp only
    rw [assignRanks_map_proj (fun a => (a.id, rowScore a)) (fun a i => rfl)]
    rw [List.pairwise_map]
    exact stableSort_rowOrder _ (hids.filter _)

/-- C6 witness: four rows, one unscored, two tied at 50 — the reranked list
is the three scored rows ordered 80, 50, 50 with the tie in insertion order
and ranks 1, 2, 3; the dense-rank/permutation/order conclusions hold for
this table. -/
theorem rerank_dense_sorted_stable_witness :
    _rerank_all [⟨1, some 50, none⟩, ⟨2, none, none⟩, ⟨3, some 80, none⟩,
        ⟨4, some 50, none⟩]
      = [⟨3, some 80, some 1⟩, ⟨1, some 50, some 2⟩, ⟨4, some 50, some 3⟩]
    ∧ ((_rerank_all [⟨1, some 50, none⟩, ⟨2, none, none⟩, ⟨3, some 80, none⟩,
        ⟨4, some 50, none⟩]).map (fun a => (a.id, rowScore a))).Pairwise
        (fun x y => y.2 < x.2 ∨ (x.2 = y.2 ∧ x.1 < y.1)) := by
  constructor
  · norm_num [_rerank_all, stableSort, insertStable, assignRanks, rowCmp,
      rowScore]
  · exact (rerank_dense_sorted_stable
      [⟨1, some 50, none⟩, ⟨2, none, none⟩, ⟨3, some 80, none⟩,
        ⟨4, some 50, none⟩]
      (by norm_num [List.pairwise_cons])).2.2

/-- C5. On reprocessing a listing whose stored Analysis holds a cached
result: if the stored content hash equals the freshly computed one (sorted
photo-URL set capped at 6 for vision; address/district/region/land-area
tuple for subdivision), the stored result is returned verbatim and the
collaborator is not invoked; if the stored hash differs, the collaborator is
invoked on the fresh inputs and its result returned. -/
theorem cache_reuse_on_hash_match {V S : Type}
    (ea : StoredAnalysis V S) (photos : List String)
    (client : List String → V) (listing_data : CacheListing)
    (analyze : CacheListing → S) (img : V) (sub : S)
    (himg : ea.image_analysis = some img)
    (hsub : ea.subdivision_analysis = some sub) :
    ((ea.vision_photos_hash = some (_compute_photos_hash photos) →
        stage2_vision (some ea) photos client = (img, false))
      ∧ (ea.vision_photos_hash ≠ some (_compute_photos_hash photos) →
        stage2_vision (some ea) photos client = (client photos, true)))
    ∧ ((ea.subdivision_input_hash
          = some (_compute_subdivision_input_hash listing_data) →
        stage2_subdivision (some ea) listing_data analyze = (sub, false))
      ∧ (ea.subdivision_input_hash
          ≠ some (_compute_subdivision_input_hash listing_data) →
        stage2_subdivision (some ea) listing_data analyze
          = (analyze listing_data, true))) := by
  refine ⟨⟨?_, ?_⟩, ?_, ?_⟩ <;> intro h
  · simp [stage2_vision, himg, h]
  · simp [stage2_vision, himg, if_neg h]
  · simp [stage2_subdivision, hsub, h]
  · simp [stage2_subdivision, hsub, if_neg h]

/-- C5 witness: a stored analysis keyed by photos \x7b"a","b"\x7d and
subdivision tuple ("x","d","r",600) is reused for the permuted photo list
["b","a"] and the identical tuple without invoking the collaborators, while
a changed photo list or address invokes them. -/
theorem cache_reuse_on_hash_match_witness :
    stage2_vision
        (some (⟨some 7, some ["a", "b"], some 3,
          some ("x", "d", "r", some 600)⟩ : StoredAnalysis ℕ ℕ))
        ["b", "a"] (fun _ => 9) = (7, false)
      ∧ stage2_vision
        (some (⟨some 7, some ["a", "b"], some 3,
          some ("x", "d", "r", some 600)⟩ : StoredAnalysis ℕ ℕ))
        ["c"] (fun _ => 9) = (9, true)
      ∧ stage2_subdivision
        (some (⟨some 7, some ["a", "b"], some 3,
          some ("x", "d", "r", some 600)⟩ : StoredAnalysis ℕ ℕ))
        ⟨some "x", some "d", some "r", some 600⟩ (fun _ => 4) = (3, false)
      ∧ stage2_subdivision
        (some (⟨some 7, some ["a", "b"], some 3,
          some ("x", "d", "r", some 600)⟩ : StoredAnalysis ℕ ℕ))
        ⟨some "y", some "d", some "r", some 600⟩ (fun _ => 4) = (4, true) := by
  refine ⟨?_, ?_, ?_, ?_⟩
  · exact (cache_reuse_on_hash_match _ ["b", "a"] (fun _ => 9)
      ⟨some "x", some "d", some "r", some 600⟩ (fun _ => 4) 7 3 rfl
      rfl).1.1 (by decide)
  · exact (cache_reuse_on_hash_match _ ["c"] (fun _ => 9)
      ⟨some "x", some "d", some "r", some 600⟩ (fun _ => 4) 7 3 rfl
      rfl).1.2 (by decide)
  · exact (cache_reuse_on_hash_match _ ["b", "a"] (fun _ => 9)
      ⟨some "x", some "d", some "r", some 600⟩ (fun _ => 4) 7 3 rfl
      rfl).2.1 (by decide)
  · exact (cache_reuse_on_hash_match _ ["b", "a"] (fun _ => 9)
      ⟨some "y", some "d", some "r", some 600⟩ (fun _ => 4) 7 3 rfl
      rfl).2.2 (by decide)

/-- C9. With positive purchase price and positive weekly rent, the financial
models tolerate an analysis dict missing the renovation, arv, timeline,
council and insurability sub-results: they substitute the fixed defaults
(renovation cost 60000, sale price 1.2x price when ARV is missing, 8-week
timeline, 3000 annual rates, 2000 annual insurance) and return fully
populated results. -/
theorem financial_defaults_on_missing_subresults (price rent : ℚ) (o : Option ℚ)
    (h1 : 0 < price) (h2 : 0 < rent) :
    (calculate_flip_financials ⟨some price⟩
        ⟨none, none, none, none, none, some ⟨some rent⟩⟩ o).renovation_cost = 60000
      ∧ (calculate_flip_financials ⟨some price⟩
        ⟨none, none, none, none, none, some ⟨some rent⟩⟩ o).arv
        = pyRound 2 (price * 1.2)
      ∧ (calculate_flip_financials ⟨some price⟩
        ⟨none, none, none, none, none, some ⟨some rent⟩⟩ o).timeline_weeks = 8
      ∧ (calculate_flip_financials ⟨some price⟩
        ⟨none, none, none, none, none, some ⟨some rent⟩⟩ o).rates_cost
        = pyRound 2 (3000 * (8 / 4.33 / 12))
      ∧ (calculate_flip_financials ⟨some price⟩
        ⟨none, none, none, none, none, some ⟨some rent⟩⟩ o).insurance_cost
        = pyRound 2 (1000 * (8 / 4.33 / 12))
      ∧ (calculate_rental_financials ⟨some price⟩
        ⟨none, none, none, none, none, some ⟨some rent⟩⟩ o).renovation_cost = 60000
      ∧ (calculate_rental_financials ⟨some price⟩
        ⟨none, none, none, none, none, some ⟨some rent⟩⟩ o).insurance = 2000
      ∧ (calculate_rental_financials ⟨some price⟩
        ⟨none, none, none, none, none, some ⟨some rent⟩⟩ o).annual_rates = 3000
      ∧ (calculate_rental_financials ⟨some price⟩
        ⟨none, none, none, none, none, some ⟨some rent⟩⟩ o).annual_rent
        = pyRound 2 (rent * 50) := by
  have hp : ¬ ((⟨some price⟩ : FinListing).price_display.getD 0 ≤ 0) := by
    simpa using not_le.mpr h1
  have hpr : ¬ ((⟨some price⟩ : FinListing).price_display.getD 0 ≤ 0
      ∨ ((⟨none, none, none, none, none, some ⟨some rent⟩⟩ :
        FinAnalysis).rental.bind (·.estimated_weekly_rent)).getD 0 ≤ 0) := by
    simp only [not_or]
    exact ⟨by simpa using not_le.mpr h1, by simpa using not_le.mpr h2⟩
  unfold calculate_flip_financials calculate_rental_financials
  dsimp only
  rw [if_neg hp, if_neg hpr]
  refine ⟨by norm_num [pyRound, pyRoundInt, pow10], ?_, rfl,
    rfl, rfl, by norm_num [pyRound, pyRoundInt, pow10],
    by norm_num [pyRound, pyRoundInt, pow10],
    by norm_num [pyRound, pyRoundInt, pow10], rfl⟩
  · norm_num

/-- C9 witness: the defaults at price 500000 and weekly rent 650. -/
theorem financial_defaults_on_missing_subresults_witness :
    (calculate_flip_financials ⟨some 500000⟩
        ⟨none, none, none, none, none, some ⟨some 650⟩⟩ none).renovation_cost = 60000
      ∧ (calculate_flip_financials ⟨some 500000⟩
        ⟨none, none, none, none, none, some ⟨some 650⟩⟩ none).arv
        = pyRound 2 (500000 * 1.2)
      ∧ (calculate_flip_financials ⟨some 500000⟩
        ⟨none, none, none, none, none, some ⟨some 650⟩⟩ none).timeline_weeks = 8
      ∧ (calculate_flip_financials ⟨some 500000⟩
        ⟨none, none, none, none, none, some ⟨some 650⟩⟩ none).rates_cost
        = pyRound 2 (3000 * (8 / 4.33 / 12))
      ∧ (calculate_flip_financials ⟨some 500000⟩
        ⟨none, none, none, none, none, some ⟨some 650⟩⟩ none).insurance_cost
        = pyRound 2 (1000 * (8 / 4.33 / 12))
      ∧ (calculate_rental_financials ⟨some 500000⟩
        ⟨none, none, none, none, none, some ⟨some 650⟩⟩ none).renovation_cost = 60000
      ∧ (calculate_rental_financials ⟨some 500000⟩
        ⟨none, none, none, none, none, some ⟨some 650⟩⟩ none).insurance = 2000
      ∧ (calculate_rental_financials ⟨some 500000⟩
        ⟨none, none, none, none, none, some ⟨some 650⟩⟩ none).annual_rates = 3000
      ∧ (calculate_rental_financials ⟨some 500000⟩
        ⟨none, none, none, none, none, some ⟨some 650⟩⟩ none).annual_rent
        = pyRound 2 (650 * 50) :=
  financial_defaults_on_missing_subresults 500000 650 none (by norm_num)
    (by norm_num)

end NZP
